import Mathlib

/-!
Data generators of `script.js`.

A shallow embedding of the five dataset generators of `src/script.js`
(`generateTimeSeriesData`, `generateSalesData`, `getProgrammingLanguageData`,
`generateQuadraticData`, `generateTanData`), of the registry `charts` with
`createChart1` .. `createChart5`, `switchChart` and `initCharts`, together with the
properties the specification states about them.

JavaScript numbers are IEEE-754 binary64 values.  Every finite binary64 value is
an integer multiple of `2^-1074`, so a number is represented by that integer
(`F64.units`); each arithmetic operation computes the exact result as a fraction
of integers and rounds it to the nearest value with a 53-bit significand, ties to
even (`F64.round53`).  Infinities and NaN are outside the model: no computation
below leaves the finite range.  A decimal literal of the source such as `0.4`
denotes, as in JavaScript, the binary64 value nearest to it.

`Math.random`, `Math.tan` and `Date.prototype.toLocaleString` are supplied by the
host: the draws of `Math.random` are a parameter `random : ℕ → F64` (the `k`-th
call of one run returns `random k`), `Math.tan` is a parameter `tan : F64 → F64`,
and the label formatter is a parameter `toLocaleString : JSDate → String`.

A `for` statement is run by `forLoop` with an explicit bound on the number of
condition tests; `none` means the bound was reached before the loop ended.
-/

/-- Finite binary64 value: the number `units * 2^-1074`. -/
structure F64 where
  units : ℤ
deriving DecidableEq

namespace F64

/-- The number of units in `1`: `2^1074`. -/
def scale : ℕ := 2 ^ 1074

/-- Nearest integer to `a / d`, ties to the even integer. -/
def rne (a : ℤ) (d : ℕ) : ℤ :=
  let q := a / (d : ℤ)
  let r := a % (d : ℤ)
  if 2 * r < (d : ℤ) then q
  else if (d : ℤ) < 2 * r then q + 1
  else if q % 2 = 0 then q else q + 1

/-- First `h` among `h, 2h, 4h, ...` with `n < 2 ^ h` (at most `fuel` doublings). -/
def log2Hi : ℕ → ℕ → ℕ → ℕ
  | 0, _, h => h
  | fuel + 1, n, h => if n < 2 ^ h then h else log2Hi fuel n (2 * h)

/-- Bisection for the `e` in `[lo, hi)` with `2 ^ e ≤ n < 2 ^ (e + 1)`. -/
def log2Search : ℕ → ℕ → ℕ → ℕ → ℕ
  | 0, _, lo, _ => lo
  | fuel + 1, n, lo, hi =>
    if hi ≤ lo + 1 then lo
    else if 2 ^ ((lo + hi) / 2) ≤ n then log2Search fuel n ((lo + hi) / 2) hi
    else log2Search fuel n lo ((lo + hi) / 2)

/-- The position of the leading bit, `⌊log2 n⌋` (and `0` for `n = 0`). -/
def log2 (n : ℕ) : ℕ := log2Search n n 0 (log2Hi n n 1)

/-- Round the rational number of units `a / b` to the nearest binary64 value:
with `e = ⌊log2 |a / b|⌋`, the result is a multiple of `2 ^ (e - 52)` units
(of one unit when `e ≤ 52`, the subnormal range). -/
def round53 (a : ℤ) (b : ℕ) : F64 :=
  let sh := log2 (a.natAbs / b) - 52
  ⟨rne a (b * 2 ^ sh) * ((2 ^ sh : ℕ) : ℤ)⟩

/-- Binary64 values are exactly the unit counts with at most 53 significant bits. -/
def Representable (a : ℤ) : Prop := ((2 ^ (log2 a.natAbs - 52) : ℕ) : ℤ) ∣ a

instance (a : ℤ) : Decidable (Representable a) :=
  inferInstanceAs (Decidable (((2 ^ (log2 a.natAbs - 52) : ℕ) : ℤ) ∣ a))

/-- Decimal literal `m * 10^e` (`neg = false`) or `m / 10^e` (`neg = true`). -/
def ofScientific (m : ℕ) (neg : Bool) (e : ℕ) : F64 :=
  if neg then round53 ((m : ℤ) * (scale : ℤ)) (10 ^ e)
  else round53 ((m : ℤ) * (10 ^ e : ℕ) * (scale : ℤ)) 1

instance : OfScientific F64 := ⟨ofScientific⟩

instance (n : ℕ) : OfNat F64 n := ⟨ofScientific n false 0⟩

/-- Unary minus (exact). -/
def neg (x : F64) : F64 := ⟨-x.units⟩

/-- Binary64 addition. -/
def add (x y : F64) : F64 := round53 (x.units + y.units) 1

/-- Binary64 subtraction. -/
def sub (x y : F64) : F64 := round53 (x.units - y.units) 1

/-- Binary64 multiplication. -/
def mul (x y : F64) : F64 := round53 (x.units * y.units) scale

/-- Binary64 division by a nonzero divisor (a zero divisor, which gives an
infinity or NaN in JavaScript, is outside the model). -/
def div (x y : F64) : F64 :=
  round53 (x.units * (scale : ℤ) * y.units.sign) y.units.natAbs

instance : Neg F64 := ⟨neg⟩
instance : Add F64 := ⟨add⟩
instance : Sub F64 := ⟨sub⟩
instance : Mul F64 := ⟨mul⟩
instance : Div F64 := ⟨div⟩
instance : LE F64 := ⟨fun x y => x.units ≤ y.units⟩
instance : LT F64 := ⟨fun x y => x.units < y.units⟩
instance (x y : F64) : Decidable (x ≤ y) := inferInstanceAs (Decidable (x.units ≤ y.units))
instance (x y : F64) : Decidable (x < y) := inferInstanceAs (Decidable (x.units < y.units))

/-- The rational number a binary64 value stands for. -/
def toRat (x : F64) : ℚ := (x.units : ℚ) / (scale : ℚ)

end F64

/-- `Math.max` on two finite numbers. -/
def Math.max (x y : F64) : F64 := if x ≤ y then y else x

/-- `Math.min` on two finite numbers. -/
def Math.min (x y : F64) : F64 := if x ≤ y then x else y

/-- `Math.PI`: the binary64 value nearest to π, `884279719003555 / 2^48`. -/
def Math.PI : F64 := ⟨884279719003555 * ((2 ^ 1026 : ℕ) : ℤ)⟩

/-- A `for (init; cond; update) body` statement on the state `σ` of its variables:
`step` is the body followed by the update, and `fuel` bounds the number of
condition tests. -/
def forLoop {σ : Type} (cond : σ → Bool) (step : σ → σ) : ℕ → σ → Option σ
  | 0, _ => none
  | fuel + 1, s => if cond s then forLoop cond step fuel (step s) else some s

/-! ## `generateQuadraticData` -/

/-- The object returned by `generateQuadraticData` and `generateTanData`. -/
structure CurveData where
  xValues : List F64
  yValues : List F64
deriving DecidableEq

/-- Variables of a curve loop: the loop variable `x` and the two arrays. -/
structure CurveState where
  x : F64
  xValues : List F64
  yValues : List F64
deriving DecidableEq

/-- Loop condition `x <= 2`. -/
def quadraticCond (s : CurveState) : Bool := decide (s.x ≤ 2)

/-- Loop body `xValues.push(x); yValues.push(x * x)` and update `x += 0.05`. -/
def quadraticStep (s : CurveState) : CurveState :=
  { x := s.x + 0.05, xValues := s.xValues ++ [s.x], yValues := s.yValues ++ [s.x * s.x] }

/-- `generateQuadraticData()`. -/
def generateQuadraticData (fuel : ℕ) : Option CurveData :=
  (forLoop quadraticCond quadraticStep fuel { x := -2, xValues := [], yValues := [] }).map
    fun s => { xValues := s.xValues, yValues := s.yValues }

/-- The `k`-th value the loop variable of `generateQuadraticData` takes: `-2`
followed by `k` updates `x += 0.05`. -/
def quadraticCandidate (k : ℕ) : F64 := (fun x : F64 => x + 0.05)^[k] (-2)

/-! ## `generateTanData` -/

/-- Loop condition `x < Math.PI/2 - 0.1`. -/
def tanCond (s : CurveState) : Bool := decide (s.x < Math.PI / 2 - 0.1)

/-- Loop body `const y = Math.tan(x); if (y >= -3 && y <= 3) { push x; push y }`
and update `x += 0.05`. -/
def tanStep (tan : F64 → F64) (s : CurveState) : CurveState :=
  let y := tan s.x
  if -3 ≤ y ∧ y ≤ 3 then
    { x := s.x + 0.05, xValues := s.xValues ++ [s.x], yValues := s.yValues ++ [y] }
  else
    { x := s.x + 0.05, xValues := s.xValues, yValues := s.yValues }

/-- `generateTanData()`, with the host function `Math.tan` as a parameter. -/
def generateTanData (tan : F64 → F64) (fuel : ℕ) : Option CurveData :=
  (forLoop tanCond (tanStep tan) fuel
      { x := -Math.PI / 2 + 0.1, xValues := [], yValues := [] }).map
    fun s => { xValues := s.xValues, yValues := s.yValues }

/-- The `k`-th value the loop variable of `generateTanData` takes:
`-Math.PI/2 + 0.1` followed by `k` updates `x += 0.05`. -/
def tanCandidate (k : ℕ) : F64 := (fun x : F64 => x + 0.05)^[k] (-Math.PI / 2 + 0.1)

/-! ## `generateTimeSeriesData` -/

/-- A `Date` read in the local time zone: whole hours elapsed since
2025-01-01 00:00 local time (no clock change falls in the window used). -/
structure JSDate where
  hours : ℕ
deriving DecidableEq

/-- `Date.prototype.getHours`: the hour of the day. -/
def JSDate.getHours (d : JSDate) : ℕ := d.hours % 24

/-- `Date.prototype.setHours`: same day, hour field `h` (an `h` of 24 or more
carries into the following days). -/
def JSDate.setHours (d : JSDate) (h : ℕ) : JSDate := ⟨d.hours / 24 * 24 + h⟩

/-- Value of `new Date('2025-01-01 00:00:00')`. -/
def startDate : JSDate := ⟨0⟩

/-- Value of `new Date('2025-01-02 20:00:00')`. -/
def endDate : JSDate := ⟨44⟩

/-- The object returned by `generateTimeSeriesData`. -/
structure TimeSeriesData where
  labels : List String
  data : List F64

/-- Variables of the loop of `generateTimeSeriesData`; `calls` counts the calls of
`Math.random` made so far. -/
structure TimeSeriesState where
  d : JSDate
  calls : ℕ
  labels : List String
  data : List F64

/-- The `if` chain assigning `baseValue` from `hour`. -/
def baseValue (hour : ℕ) : F64 :=
  if 2 ≤ hour ∧ hour ≤ 6 then 100.2
  else if 14 ≤ hour ∧ hour ≤ 18 then 102.3
  else if 20 ≤ hour ∨ hour ≤ 1 then 100.8
  else 101.5

/-- The number pushed to `data` for hour `hour` when `Math.random()` returns `r`. -/
def timeSeriesValue (hour : ℕ) (r : F64) : F64 :=
  let fluctuation := (r - 0.5) * 0.4
  let value := baseValue hour + fluctuation
  Math.min 103 (Math.max 99.5 value)

/-- Loop condition `d <= endDate`. -/
def timeSeriesCond (s : TimeSeriesState) : Bool := decide (s.d.hours ≤ endDate.hours)

/-- Loop body and update `d.setHours(d.getHours() + 1)`. -/
def timeSeriesStep (toLocaleString : JSDate → String) (random : ℕ → F64)
    (s : TimeSeriesState) : TimeSeriesState :=
  { d := s.d.setHours (s.d.getHours + 1)
    calls := s.calls + 1
    labels := s.labels ++ [toLocaleString s.d]
    data := s.data ++ [timeSeriesValue s.d.getHours (random s.calls)] }

/-- `generateTimeSeriesData()`, with the hosts label formatter and the draws of
`Math.random` as parameters. -/
def generateTimeSeriesData (toLocaleString : JSDate → String) (random : ℕ → F64)
    (fuel : ℕ) : Option TimeSeriesData :=
  (forLoop timeSeriesCond (timeSeriesStep toLocaleString random) fuel
      { d := startDate, calls := 0, labels := [], data := [] }).map
    fun s => { labels := s.labels, data := s.data }

/-! ## `generateSalesData` -/

/-- The object returned by `generateSalesData`. -/
structure SalesData where
  months : List String
  nationalSales : List F64
  eastChinaSales : List F64

/-- Variables of the loop of `generateSalesData`; `calls` counts the calls of
`Math.random` made so far. -/
structure SalesState where
  i : ℕ
  calls : ℕ
  nationalSales : List F64
  eastChinaSales : List F64

/-- The `if` chain assigning `seasonalFactor` from the month index `i`. -/
def seasonalFactor (i : ℕ) : F64 :=
  if 6 ≤ i ∧ i ≤ 8 then 1.4
  else if (0 ≤ i ∧ i ≤ 1) ∨ (10 ≤ i ∧ i ≤ 11) then 0.8
  else 1.1

/-- Seasonal multiplier as the specification words it: 1.4 for July to September,
0.8 for months 1-2 and 11-12, 1.1 otherwise (`i` is the 0-based month index). -/
def specSeasonalMultiplier (i : ℕ) : ℚ :=
  if i = 6 ∨ i = 7 ∨ i = 8 then 7 / 5
  else if i = 0 ∨ i = 1 ∨ i = 10 ∨ i = 11 then 4 / 5
  else 11 / 10

/-- The constant array `months`. -/
def months : List String :=
  ["1月", "2月", "3月", "4月", "5月", "6月", "7月", "8月", "9月", "10月", "11月", "12月"]

/-- Loop condition `i < 12`. -/
def salesCond (s : SalesState) : Bool := decide (s.i < 12)

/-- Loop body (two pushes, each with its own call of `Math.random`) and update `i++`. -/
def salesStep (random : ℕ → F64) (s : SalesState) : SalesState :=
  { i := s.i + 1
    calls := s.calls + 2
    nationalSales := s.nationalSales ++ [70 * seasonalFactor s.i + (random s.calls - 0.5) * 8]
    eastChinaSales :=
      s.eastChinaSales ++ [30 * seasonalFactor s.i + (random (s.calls + 1) - 0.5) * 4] }

/-- `generateSalesData()`, with the draws of `Math.random` as a parameter. -/
def generateSalesData (random : ℕ → F64) (fuel : ℕ) : Option SalesData :=
  (forLoop salesCond (salesStep random) fuel
      { i := 0, calls := 0, nationalSales := [], eastChinaSales := [] }).map
    fun s => { months := months, nationalSales := s.nationalSales,
               eastChinaSales := s.eastChinaSales }

/-! ## `getProgrammingLanguageData` -/

/-- `Number.prototype.toFixed(fd)` on a finite number of magnitude below `10^21`:
the integer `n` nearest to `|x| * 10^fd` (the larger one on a tie), written in
decimal, padded with zeros to `fd + 1` digits, with a point before its last `fd`
digits and a minus sign for negative `x`. -/
def toFixed (x : F64) (fd : ℕ) : String :=
  let a := x.units.natAbs
  let n := (2 * a * 10 ^ fd + F64.scale) / (2 * F64.scale)
  let m := Nat.toDigits 10 n
  let m := if m.length ≤ fd then List.replicate (fd + 1 - m.length) (Char.ofNat 48) ++ m else m
  let body := if fd = 0 then m else m.take (m.length - fd) ++ [Char.ofNat 46] ++ m.drop (m.length - fd)
  String.mk (if x.units < 0 then Char.ofNat 45 :: body else body)

/-- The object returned by `getProgrammingLanguageData`. -/
structure LanguageData where
  languages : List String
  votes : List F64
  percentages : List String
deriving DecidableEq

/-- `getProgrammingLanguageData()`. -/
def getProgrammingLanguageData : LanguageData :=
  let languages := ["Python", "JavaScript", "Java", "C#", "Go", "TypeScript"]
  let votes : List F64 := [450, 380, 290, 180, 120, 90]
  let total := votes.foldl (fun sum v => sum + v) 0
  let percentages := votes.map fun v => toFixed ((v / total) * 100) 1
  { languages := languages, votes := votes, percentages := percentages }

/-! ## Chart axes of `createChart2` -/

/-- The `min` and `max` options of a linear chart axis. -/
structure Axis where
  min : F64
  max : F64

/-- Axis `scales.y` of `createChart2`, used by the national data set (`yAxisID: 'y'`). -/
def chart2AxisY : Axis := { min := 50, max := 90 }

/-- Axis `scales.y1` of `createChart2`, used by the regional data set (`yAxisID: 'y1'`). -/
def chart2AxisY1 : Axis := { min := 20, max := 40 }

/-! ## The registry `charts`, `createChart1` .. `createChart5`, `switchChart`, `initCharts`

The charting library and the console are external: a page state keeps the object
`charts` and the sequence of calls made so far (entering `createChartN`,
`instance.destroy()`, `new Chart(...)`, `console.log`, `console.error`).  A chart
instance is identified by the number of instances constructed before it.  A call
completes normally or throws; the state reached is kept in both cases. -/

/-- The keys of the object `charts`. -/
inductive ChartId where
  | chart1
  | chart2
  | chart3
  | chart4
  | chart5
deriving DecidableEq

/-- What a call can throw: building chart `c` failed (the canvas lookup
`getElementById(...).getContext('2d')` or `new Chart(...)` threw), `event.target`
was read while no event is being dispatched, or `document.querySelectorAll` was
given a string that is not a valid selector. -/
inductive JSError where
  | chartBuild (c : ChartId)
  | noEvent
  | invalidSelector (selector : String)
deriving DecidableEq

/-- The calls recorded in a page state. -/
inductive Event where
  | createChart (c : ChartId) (type : String)
  | destroy (obj : ℕ)
  | construct (c : ChartId) (type : String) (obj : ℕ)
  | consoleLog (msg : String)
  | consoleError (msg : String) (error : JSError)
deriving DecidableEq

/-- Page state: the object `charts` (a missing key is `none`) and the calls so far. -/
structure Page where
  charts : ChartId → Option ℕ
  trace : List Event

/-- State after a call and the exception it threw, if any. -/
structure Outcome where
  page : Page
  thrown : Option JSError

/-- The state at page load: `const charts = {}` and no call made. -/
def emptyPage : Page := { charts := fun _ => none, trace := [] }

/-- Number of instances constructed so far. -/
def constructedCount (trace : List Event) : ℕ :=
  (trace.filter fun e => match e with
    | Event.construct _ _ _ => true
    | _ => false).length

/-- The common shape of `createChart1` .. `createChart5` for the key `c`: the data
generator is called (it has no effect on the page), the instance registered under
`c`, if any, is destroyed, then the canvas context is fetched and
`charts[c] = new Chart(ctx, config)` is run; `ok` tells whether these last two
steps complete, otherwise they throw and the assignment is not made. -/
def createChart (ok : Bool) (c : ChartId) (type : String) (p : Page) : Outcome :=
  let entered : Page := { charts := p.charts, trace := p.trace ++ [Event.createChart c type] }
  let cleared : Page :=
    match entered.charts c with
    | some old => { charts := entered.charts, trace := entered.trace ++ [Event.destroy old] }
    | none => entered
  if ok then
    { page :=
        { charts := Function.update cleared.charts c (some (constructedCount cleared.trace))
          trace := cleared.trace
            ++ [Event.construct c type (constructedCount cleared.trace)] }
      thrown := none }
  else
    { page := cleared, thrown := some (JSError.chartBuild c) }

/-- `createChart1(type)`. -/
def createChart1 (ok : Bool) (type : String) : Page → Outcome :=
  createChart ok ChartId.chart1 type

/-- `createChart2(type)`. -/
def createChart2 (ok : Bool) (type : String) : Page → Outcome :=
  createChart ok ChartId.chart2 type

/-- `createChart3(type)`. -/
def createChart3 (ok : Bool) (type : String) : Page → Outcome :=
  createChart ok ChartId.chart3 type

/-- `createChart4(type)`. -/
def createChart4 (ok : Bool) (type : String) : Page → Outcome :=
  createChart ok ChartId.chart4 type

/-- `createChart5(type)`. -/
def createChart5 (ok : Bool) (type : String) : Page → Outcome :=
  createChart ok ChartId.chart5 type

/-- `switchChart(chartId, type)`: the buttons are looked up first with
`document.querySelectorAll` on the selector built from `chartId`, which throws a
SyntaxError when that string is not a valid selector, as for an empty `chartId`
(`selectorOk = false`); then the button state is updated, which reads `event.target`
and throws when no event is being dispatched (`hasEvent = false`); then the
`switch` statement calls the matching `createChartN`, and does nothing for any
other `chartId`. -/
def switchChart (selectorOk hasEvent ok : Bool) (chartId type : String) (p : Page) : Outcome :=
  if selectorOk then
    if hasEvent then
      if chartId = "chart1" then createChart1 ok type p
      else if chartId = "chart2" then createChart2 ok type p
      else if chartId = "chart3" then createChart3 ok type p
      else if chartId = "chart4" then createChart4 ok type p
      else if chartId = "chart5" then createChart5 ok type p
      else { page := p, thrown := none }
    else { page := p, thrown := some JSError.noEvent }
  else
    { page := p
      thrown := some (JSError.invalidSelector (String.append "#" (String.append chartId " .chart-btn"))) }

/-- `console.log(msg)`. -/
def consoleLog (msg : String) (p : Page) : Outcome :=
  { page := { charts := p.charts, trace := p.trace ++ [Event.consoleLog msg] }, thrown := none }

/-- `console.error(msg, error)`. -/
def consoleError (msg : String) (error : JSError) (p : Page) : Outcome :=
  { page := { charts := p.charts, trace := p.trace ++ [Event.consoleError msg error] }
    thrown := none }

/-- A statement sequence: the statements run in order until one throws. -/
def runBlock : List (Page → Outcome) → Page → Outcome
  | [], p => { page := p, thrown := none }
  | stmt :: rest, p =>
    match (stmt p).thrown with
    | none => runBlock rest (stmt p).page
    | some error => { page := (stmt p).page, thrown := some error }

/-- The statement `try { body } catch (error) { handler }`. -/
def tryStatement (body : Page → Outcome) (handler : JSError → Page → Outcome) (p : Page) : Outcome :=
  match (body p).thrown with
  | none => body p
  | some error => handler error (body p).page

/-- `initCharts()`; `ok c` tells whether building chart `c` completes. -/
def initCharts (ok : ChartId → Bool) : Page → Outcome :=
  runBlock
    [ consoleLog "页面加载完成，开始初始化图表...",
      tryStatement
        (runBlock
          [ createChart1 (ok ChartId.chart1) "line",
            createChart2 (ok ChartId.chart2) "line",
            createChart3 (ok ChartId.chart3) "bar",
            createChart4 (ok ChartId.chart4) "line",
            createChart5 (ok ChartId.chart5) "line",
            consoleLog "所有图表初始化成功！" ])
        (consoleError "图表初始化失败:") ]

/-- A call from outside: one of `createChart1` .. `createChart5`, or `switchChart`. -/
inductive Call where
  | create (ok : Bool) (c : ChartId) (type : String)
  | switch (selectorOk hasEvent ok : Bool) (chartId type : String)

/-- Run one call. -/
def Call.run : Call → Page → Outcome
  | Call.create ok ChartId.chart1 type => createChart1 ok type
  | Call.create ok ChartId.chart2 type => createChart2 ok type
  | Call.create ok ChartId.chart3 type => createChart3 ok type
  | Call.create ok ChartId.chart4 type => createChart4 ok type
  | Call.create ok ChartId.chart5 type => createChart5 ok type
  | Call.switch selectorOk hasEvent ok chartId type =>
    switchChart selectorOk hasEvent ok chartId type

/-- The chart a call is about: the key of `createChartN`, the key named by the
`chartId` of `switchChart` (none when it names no chart). -/
def Call.target : Call → Option ChartId
  | Call.create _ c _ => some c
  | Call.switch _ _ _ chartId _ =>
    if chartId = "chart1" then some ChartId.chart1
    else if chartId = "chart2" then some ChartId.chart2
    else if chartId = "chart3" then some ChartId.chart3
    else if chartId = "chart4" then some ChartId.chart4
    else if chartId = "chart5" then some ChartId.chart5
    else none

/-- The render type a call passes on. -/
def Call.type : Call → String
  | Call.create _ _ type => type
  | Call.switch _ _ _ _ type => type

/-- The state after a sequence of calls, each starting in the state the previous one
left (whether it completed or threw). -/
def runCalls : List Call → Page → Page
  | [], p => p
  | call :: rest, p => runCalls rest (call.run p).page

/-- The five charts in the order `initCharts` creates them, with their render types. -/
def initSequence : List (ChartId × String) :=
  [(ChartId.chart1, "line"), (ChartId.chart2, "line"), (ChartId.chart3, "bar"),
   (ChartId.chart4, "line"), (ChartId.chart5, "line")]

/-- Every instance ever constructed is the one registered under its key or has been
destroyed. -/
def RegistryInvariant (p : Page) : Prop :=
  ∀ (c : ChartId) (type : String) (obj : ℕ), Event.construct c type obj ∈ p.trace →
    p.charts c = some obj ∨ Event.destroy obj ∈ p.trace

/-- A sample history: chart 2 is created, then building chart 1 fails. -/
def exampleCalls : List Call :=
  [Call.create true ChartId.chart2 "line", Call.create false ChartId.chart1 "line"]

/-- A sample call: a click switches chart 2 to bars. -/
def exampleCall : Call := Call.switch true true true "chart2" "bar"

/-- A sample page on which building chart 3 fails and every other chart is built. -/
def exampleOk (c : ChartId) : Bool := decide (c ≠ ChartId.chart3)

/-! ## Calls of the generators in a running program

Between two calls the program keeps the page (the module variable `charts` and the
calls made to the chart library and the console) and the host keeps the state of
`Math.random`, here the number of calls of `Math.random` made since the program
started: the `n`-th call returns `random n`. -/

/-- The state a call finds and the state it leaves. -/
structure World where
  page : Page
  randomCalls : ℕ

/-- The five generator functions. -/
inductive Generator where
  | timeSeries
  | sales
  | languages
  | quadratic
  | tangent
deriving DecidableEq

/-- The object a generator returns. -/
inductive Dataset where
  | timeSeries (d : TimeSeriesData)
  | sales (d : SalesData)
  | languages (d : LanguageData)
  | curve (d : CurveData)

/-- One call of a generator in the world `w`: the object returned and the world left.
A call of `Math.random` made after `k` earlier calls of the same run returns
`random (w.randomCalls + k)`; the loops are those of the generators above, with
their variables. No generator assigns to `charts` or calls the chart library or the
console. -/
def callGenerator (toLocaleString : JSDate → String) (tan : F64 → F64) (random : ℕ → F64)
    (fuel : ℕ) : Generator → World → Option (Dataset × World)
  | Generator.timeSeries, w =>
    (forLoop timeSeriesCond
        (timeSeriesStep toLocaleString fun k => random (w.randomCalls + k)) fuel
        { d := startDate, calls := 0, labels := [], data := [] }).map
      fun s => (Dataset.timeSeries { labels := s.labels, data := s.data },
        { page := w.page, randomCalls := w.randomCalls + s.calls })
  | Generator.sales, w =>
    (forLoop salesCond (salesStep fun k => random (w.randomCalls + k)) fuel
        { i := 0, calls := 0, nationalSales := [], eastChinaSales := [] }).map
      fun s => (Dataset.sales { months := months, nationalSales := s.nationalSales,
                                eastChinaSales := s.eastChinaSales },
        { page := w.page, randomCalls := w.randomCalls + s.calls })
  | Generator.languages, w => some (Dataset.languages getProgrammingLanguageData, w)
  | Generator.quadratic, w => (generateQuadraticData fuel).map fun d => (Dataset.curve d, w)
  | Generator.tangent, w => (generateTanData tan fuel).map fun d => (Dataset.curve d, w)

/-- A sample world: the page after the sample history, 69 calls of `Math.random` made. -/
def exampleWorld : World := { page := runCalls exampleCalls emptyPage, randomCalls := 69 }

/-- The world at page load. -/
def emptyWorld : World := { page := emptyPage, randomCalls := 0 }

/-- A sample stream of draws: 0 and 0.5 in turn. -/
def exampleRandom (n : ℕ) : F64 := if n % 2 = 0 then 0 else 0.5

namespace F64

theorem log2Hi_spec (fuel n h : ℕ) (hn : n < 2 ^ (h * 2 ^ fuel)) : n < 2 ^ log2Hi fuel n h := by
  induction fuel generalizing h with
  | zero => simpa [log2Hi] using hn
  | succ fuel ih =>
    unfold log2Hi
    split
    · assumption
    · apply ih
      have : 2 * h * 2 ^ fuel = h * 2 ^ (fuel + 1) := by ring
      rw [this]; exact hn

theorem log2Hi_le (fuel n h : ℕ) (hh : h ≤ 2 ^ n) : log2Hi fuel n h ≤ 2 ^ n := by
  induction fuel generalizing h with
  | zero => simpa [log2Hi] using hh
  | succ fuel ih =>
    unfold log2Hi
    split
    · exact hh
    · rename_i hlt
      apply ih
      have h1 : 2 ^ h ≤ n := Nat.le_of_not_lt hlt
      have h2 : h < 2 ^ h := Nat.lt_two_pow h
      have h3 : n - 1 < 2 ^ (n - 1) := Nat.lt_two_pow (n - 1)
      have h4 : 2 ^ n = 2 * 2 ^ (n - 1) := by
        have : n = (n - 1) + 1 := by omega
        conv_lhs => rw [this, pow_succ]
        ring
      omega

theorem log2Search_spec (fuel n lo hi : ℕ) (hlo : 2 ^ lo ≤ n) (hhi : n < 2 ^ hi)
    (hw : hi - lo ≤ 2 ^ fuel) :
    2 ^ log2Search fuel n lo hi ≤ n ∧ n < 2 ^ (log2Search fuel n lo hi + 1) := by
  induction fuel generalizing lo hi with
  | zero =>
    simp only [log2Search]
    refine ⟨hlo, lt_of_lt_of_le hhi (Nat.pow_le_pow_right (by norm_num) ?_)⟩
    simp at hw; omega
  | succ fuel ih =>
    unfold log2Search
    split
    · rename_i h
      exact ⟨hlo, lt_of_lt_of_le hhi (Nat.pow_le_pow_right (by norm_num) h)⟩
    · rename_i h
      have hp : 2 ^ (fuel + 1) = 2 * 2 ^ fuel := by rw [pow_succ]; ring
      split
      · rename_i hm
        exact ih _ _ hm hhi (by omega)
      · rename_i hm
        exact ih _ _ hlo (Nat.lt_of_not_le hm) (by omega)

theorem log2_spec (n : ℕ) (hn : n ≠ 0) : 2 ^ log2 n ≤ n ∧ n < 2 ^ (log2 n + 1) := by
  unfold log2
  apply log2Search_spec
  · simpa using Nat.one_le_iff_ne_zero.mpr hn
  · apply log2Hi_spec
    have h1 : n < 2 ^ n := Nat.lt_two_pow n
    have h2 : n ≤ 1 * 2 ^ n := by omega
    exact lt_of_lt_of_le h1 (Nat.pow_le_pow_right (by norm_num) h2)
  · have := log2Hi_le n n 1 (Nat.one_le_two_pow)
    omega

theorem log2_zero : log2 0 = 0 := by decide

end F64

namespace F64

theorem rne_ge (a : ℤ) (d : ℕ) (k : ℤ) (hd : 0 < d) (h : k * (d : ℤ) ≤ a) : k ≤ rne a d := by
  have hd0 : (0 : ℤ) < (d : ℤ) := by exact_mod_cast hd
  have hq : k ≤ a / (d : ℤ) := Int.le_ediv_of_mul_le hd0 h
  unfold rne
  simp only
  split
  · exact hq
  · split
    · omega
    · split <;> omega

theorem rne_le (a : ℤ) (d : ℕ) (k : ℤ) (hd : 0 < d) (h : a ≤ k * (d : ℤ)) : rne a d ≤ k := by
  have hd0 : (0 : ℤ) < (d : ℤ) := by exact_mod_cast hd
  have hdiv : (d : ℤ) * (a / (d : ℤ)) + a % (d : ℤ) = a := Int.ediv_add_emod a d
  have hr0 : 0 ≤ a % (d : ℤ) := Int.emod_nonneg a (ne_of_gt hd0)
  have hq : a / (d : ℤ) ≤ k := by
    by_contra hc
    have h1 : k + 1 ≤ a / (d : ℤ) := by omega
    have h2 : (d : ℤ) * (k + 1) ≤ (d : ℤ) * (a / (d : ℤ)) := Int.mul_le_mul_of_nonneg_left h1 hd0.le
    nlinarith
  have hlt : 0 < a % (d : ℤ) → a / (d : ℤ) + 1 ≤ k := by
    intro hr
    by_contra hc
    have h1 : a / (d : ℤ) = k := by omega
    rw [h1] at hdiv
    nlinarith
  unfold rne
  simp only
  split
  · exact hq
  · split
    · apply hlt; omega
    · split
      · exact hq
      · apply hlt; omega

/-- Rounding never crosses a binary64 value from above. -/
theorem round53_ge (A a : ℤ) (b : ℕ) (hb : 0 < b) (hA : Representable A)
    (h : A * (b : ℤ) ≤ a) : A ≤ (round53 a b).units := by
  unfold round53
  simp only
  set sh := log2 (a.natAbs / b) - 52 with hsh
  have hP : 0 < 2 ^ sh := Nat.pos_pow_of_pos sh (by norm_num)
  have hPz : (0 : ℤ) < ((2 ^ sh : ℕ) : ℤ) := by exact_mod_cast hP
  have hbP : 0 < b * 2 ^ sh := Nat.mul_pos hb hP
  by_cases hdiv : ((2 ^ sh : ℕ) : ℤ) ∣ A
  · obtain ⟨c, hc⟩ := hdiv
    have h1 : c ≤ rne a (b * 2 ^ sh) := by
      apply rne_ge _ _ _ hbP
      push_cast
      rw [hc] at h
      push_cast at h
      nlinarith
    rw [hc]
    have := Int.mul_le_mul_of_nonneg_left h1 hPz.le
    linarith
  · have hA0 : A ≠ 0 := by
      rintro rfl; exact hdiv (dvd_zero _)
    have hAn : A.natAbs ≠ 0 := by omega
    have hlA := (log2_spec A.natAbs hAn).2
    have hlt : log2 A.natAbs - 52 < sh := by
      by_contra hc
      apply hdiv
      have h1 : ((2 ^ sh : ℕ) : ℤ) ∣ ((2 ^ (log2 A.natAbs - 52) : ℕ) : ℤ) := by
        exact_mod_cast pow_dvd_pow 2 (Nat.le_of_not_lt hc)
      exact dvd_trans h1 hA
    have hAlt : A.natAbs < 2 ^ (sh + 52) :=
      lt_of_lt_of_le hlA (Nat.pow_le_pow_right (by norm_num) (by omega))
    have hn0 : a.natAbs / b ≠ 0 := by
      intro h0
      rw [h0, log2_zero] at hsh
      omega
    have hla := (log2_spec _ hn0).1
    have hge : 2 ^ (sh + 52) ≤ a.natAbs / b :=
      le_trans (Nat.pow_le_pow_right (by norm_num) (by omega)) hla
    have hge2 : 2 ^ (sh + 52) * b ≤ a.natAbs := (Nat.le_div_iff_mul_le hb).mp hge
    have hge3 : ((2 ^ (sh + 52) : ℕ) : ℤ) * (b : ℤ) ≤ (a.natAbs : ℤ) := by exact_mod_cast hge2
    have hAlt3 : (A.natAbs : ℤ) < ((2 ^ (sh + 52) : ℕ) : ℤ) := by exact_mod_cast hAlt
    have hbz : (0 : ℤ) < (b : ℤ) := by exact_mod_cast hb
    have hsplit : ((2 ^ (sh + 52) : ℕ) : ℤ) = ((2 ^ 52 : ℕ) : ℤ) * ((2 ^ sh : ℕ) : ℤ) := by
      rw [pow_add]; push_cast; ring
    rcases le_or_lt 0 a with ha | ha
    · have h1 : ((2 ^ 52 : ℕ) : ℤ) ≤ rne a (b * 2 ^ sh) := by
        apply rne_ge _ _ _ hbP
        have : (a.natAbs : ℤ) = a := by omega
        rw [this, hsplit] at hge3
        push_cast at hge3 ⊢
        nlinarith
      have h2 := Int.mul_le_mul_of_nonneg_right h1 hPz.le
      rw [← hsplit] at h2
      have : A ≤ (A.natAbs : ℤ) := by omega
      linarith
    · exfalso
      have hAneg : A < 0 := by
        by_contra hc
        have : 0 ≤ A * (b : ℤ) := mul_nonneg (not_lt.mp hc) hbz.le
        linarith
      have e1 : (a.natAbs : ℤ) = -a := by omega
      have e2 : (A.natAbs : ℤ) = -A := by omega
      rw [e1] at hge3
      rw [e2] at hAlt3
      nlinarith

/-- Rounding never crosses a binary64 value from below. -/
theorem round53_le (A a : ℤ) (b : ℕ) (hb : 0 < b) (hA : Representable A)
    (h : a ≤ A * (b : ℤ)) : (round53 a b).units ≤ A := by
  unfold round53
  simp only
  set sh := log2 (a.natAbs / b) - 52 with hsh
  have hP : 0 < 2 ^ sh := Nat.pos_pow_of_pos sh (by norm_num)
  have hPz : (0 : ℤ) < ((2 ^ sh : ℕ) : ℤ) := by exact_mod_cast hP
  have hbP : 0 < b * 2 ^ sh := Nat.mul_pos hb hP
  by_cases hdiv : ((2 ^ sh : ℕ) : ℤ) ∣ A
  · obtain ⟨c, hc⟩ := hdiv
    have h1 : rne a (b * 2 ^ sh) ≤ c := by
      apply rne_le _ _ _ hbP
      push_cast
      rw [hc] at h
      push_cast at h
      nlinarith
    rw [hc]
    have := Int.mul_le_mul_of_nonneg_left h1 hPz.le
    linarith
  · have hA0 : A ≠ 0 := by
      rintro rfl; exact hdiv (dvd_zero _)
    have hAn : A.natAbs ≠ 0 := by omega
    have hlA := (log2_spec A.natAbs hAn).2
    have hlt : log2 A.natAbs - 52 < sh := by
      by_contra hc
      apply hdiv
      have h1 : ((2 ^ sh : ℕ) : ℤ) ∣ ((2 ^ (log2 A.natAbs - 52) : ℕ) : ℤ) := by
        exact_mod_cast pow_dvd_pow 2 (Nat.le_of_not_lt hc)
      exact dvd_trans h1 hA
    have hAlt : A.natAbs < 2 ^ (sh + 52) :=
      lt_of_lt_of_le hlA (Nat.pow_le_pow_right (by norm_num) (by omega))
    have hn0 : a.natAbs / b ≠ 0 := by
      intro h0
      rw [h0, log2_zero] at hsh
      omega
    have hla := (log2_spec _ hn0).1
    have hge : 2 ^ (sh + 52) ≤ a.natAbs / b :=
      le_trans (Nat.pow_le_pow_right (by norm_num) (by omega)) hla
    have hge2 : 2 ^ (sh + 52) * b ≤ a.natAbs := (Nat.le_div_iff_mul_le hb).mp hge
    have hge3 : ((2 ^ (sh + 52) : ℕ) : ℤ) * (b : ℤ) ≤ (a.natAbs : ℤ) := by exact_mod_cast hge2
    have hAlt3 : (A.natAbs : ℤ) < ((2 ^ (sh + 52) : ℕ) : ℤ) := by exact_mod_cast hAlt
    have hbz : (0 : ℤ) < (b : ℤ) := by exact_mod_cast hb
    have hsplit : ((2 ^ (sh + 52) : ℕ) : ℤ) = ((2 ^ 52 : ℕ) : ℤ) * ((2 ^ sh : ℕ) : ℤ) := by
      rw [pow_add]; push_cast; ring
    rcases le_or_lt a 0 with ha | ha
    · have h1 : rne a (b * 2 ^ sh) ≤ -((2 ^ 52 : ℕ) : ℤ) := by
        apply rne_le _ _ _ hbP
        have : (a.natAbs : ℤ) = -a := by omega
        rw [this, hsplit] at hge3
        push_cast at hge3 ⊢
        nlinarith
      have h2 := Int.mul_le_mul_of_nonneg_right h1 hPz.le
      have h3 : -((2 ^ 52 : ℕ) : ℤ) * ((2 ^ sh : ℕ) : ℤ) = -((2 ^ (sh + 52) : ℕ) : ℤ) := by
        rw [hsplit]; ring
      rw [h3] at h2
      have : -(A.natAbs : ℤ) ≤ A := by omega
      linarith
    · exfalso
      have hApos : 0 < A := by
        by_contra hc
        have : A * (b : ℤ) ≤ 0 := mul_nonpos_of_nonpos_of_nonneg (not_lt.mp hc) hbz.le
        linarith
      have e1 : (a.natAbs : ℤ) = a := by omega
      have e2 : (A.natAbs : ℤ) = A := by omega
      rw [e1] at hge3
      rw [e2] at hAlt3
      nlinarith

end F64

theorem forLoop_iterate {σ : Type} (cond : σ → Bool) (step : σ → σ) (n : ℕ) :
    ∀ (fuel : ℕ) (s : σ), n < fuel → (∀ i < n, cond (step^[i] s) = true) →
      cond (step^[n] s) = false → forLoop cond step fuel s = some (step^[n] s) := by
  induction n with
  | zero =>
    intro fuel s hf _ hstop
    obtain ⟨f, rfl⟩ : ∃ f, fuel = f + 1 := ⟨fuel - 1, by omega⟩
    simp only [Function.iterate_zero, id_eq] at hstop
    simp [forLoop, hstop]
  | succ n ih =>
    intro fuel s hf hrun hstop
    obtain ⟨f, rfl⟩ : ∃ f, fuel = f + 1 := ⟨fuel - 1, by omega⟩
    have h0 : cond s = true := hrun 0 (Nat.succ_pos n)
    simp only [forLoop, h0, if_true]
    rw [Function.iterate_succ_apply] at hstop ⊢
    apply ih f (step s) (by omega) _ hstop
    intro i hi
    have := hrun (i + 1) (by omega)
    rwa [Function.iterate_succ_apply] at this

/-! ### Closed form of the time-series loop -/

theorem timeSeries_iterate (fmt : JSDate → String) (random : ℕ → F64) (n : ℕ) :
    (timeSeriesStep fmt random)^[n] { d := startDate, calls := 0, labels := [], data := [] }
      = { d := ⟨n⟩, calls := n
          labels := (List.range n).map fun k => fmt ⟨k⟩
          data := (List.range n).map fun k => timeSeriesValue (k % 24) (random k) } := by
  induction n with
  | zero => rfl
  | succ n ih =>
    rw [Function.iterate_succ_apply', ih]
    simp only [timeSeriesStep, JSDate.setHours, JSDate.getHours, List.range_succ, List.map_append,
      List.map_cons, List.map_nil]
    congr 2
    · have := Nat.div_add_mod n 24
      rw [Nat.mul_comm] at this
      omega

theorem generateTimeSeriesData_eq (fmt : JSDate → String) (random : ℕ → F64) (fuel : ℕ)
    (hfuel : 46 ≤ fuel) :
    generateTimeSeriesData fmt random fuel
      = some { labels := (List.range 45).map fun k => fmt ⟨k⟩
               data := (List.range 45).map fun k => timeSeriesValue (k % 24) (random k) } := by
  unfold generateTimeSeriesData
  rw [forLoop_iterate _ _ 45 fuel _ (by omega)]
  · rw [timeSeries_iterate]; rfl
  · intro i hi
    rw [timeSeries_iterate]
    simp only [timeSeriesCond, endDate, decide_eq_true_eq]
    omega
  · rw [timeSeries_iterate]
    simp [timeSeriesCond, endDate]

/-! ### Closed form of the sales loop -/

theorem sales_iterate (random : ℕ → F64) (n : ℕ) :
    (salesStep random)^[n] { i := 0, calls := 0, nationalSales := [], eastChinaSales := [] }
      = { i := n, calls := 2 * n
          nationalSales := (List.range n).map fun i =>
            70 * seasonalFactor i + (random (2 * i) - 0.5) * 8
          eastChinaSales := (List.range n).map fun i =>
            30 * seasonalFactor i + (random (2 * i + 1) - 0.5) * 4 } := by
  induction n with
  | zero => rfl
  | succ n ih =>
    rw [Function.iterate_succ_apply', ih]
    simp only [salesStep, List.range_succ, List.map_append, List.map_cons, List.map_nil]
    congr 1

theorem generateSalesData_eq (random : ℕ → F64) (fuel : ℕ) (hfuel : 13 ≤ fuel) :
    generateSalesData random fuel
      = some { months := months
               nationalSales := (List.range 12).map fun i =>
                 70 * seasonalFactor i + (random (2 * i) - 0.5) * 8
               eastChinaSales := (List.range 12).map fun i =>
                 30 * seasonalFactor i + (random (2 * i + 1) - 0.5) * 4 } := by
  unfold generateSalesData
  rw [forLoop_iterate _ _ 12 fuel _ (by omega)]
  · rw [sales_iterate]; rfl
  · intro i hi
    rw [sales_iterate]
    simp only [salesCond, decide_eq_true_eq]
    exact hi
  · rw [sales_iterate]
    simp [salesCond]

namespace F64

theorem scale_pos : 0 < scale := by
  unfold scale; positivity

theorem representable_neg (A : ℤ) (h : Representable A) : Representable (-A) := by
  unfold Representable at *
  rw [Int.natAbs_neg]
  exact (dvd_neg).mpr h

theorem le_def (x y : F64) : x ≤ y ↔ x.units ≤ y.units := Iff.rfl

theorem lt_def (x y : F64) : x < y ↔ x.units < y.units := Iff.rfl

theorem add_def (x y : F64) : x + y = round53 (x.units + y.units) 1 := rfl

theorem sub_def (x y : F64) : x - y = round53 (x.units - y.units) 1 := rfl

theorem mul_def (x y : F64) : x * y = round53 (x.units * y.units) scale := rfl

theorem neg_units (x : F64) : (-x).units = -x.units := rfl

theorem toRat_le_toRat {x y : F64} (h : x ≤ y) : x.toRat ≤ y.toRat := by
  unfold toRat
  have hs : (0 : ℚ) < (scale : ℚ) := by exact_mod_cast scale_pos
  have h1 : (x.units : ℚ) ≤ (y.units : ℚ) := by exact_mod_cast h
  exact div_le_div_of_nonneg_right h1 hs.le

theorem toRat_eq_of_units (x : F64) (n : ℤ) (d : ℕ) (hd : 0 < d)
    (h : x.units * (d : ℤ) = n * (scale : ℤ)) : x.toRat = (n : ℚ) / (d : ℚ) := by
  unfold toRat
  have hs : (0 : ℚ) < (scale : ℚ) := by exact_mod_cast scale_pos
  have hd0 : (0 : ℚ) < (d : ℚ) := by exact_mod_cast hd
  have h1 : (x.units : ℚ) * (d : ℚ) = (n : ℚ) * (scale : ℚ) := by exact_mod_cast h
  rw [div_eq_div_iff hs.ne.symm hd0.ne.symm]
  exact h1

end F64

open F64

set_option maxRecDepth 100000 in
theorem units_zero : (0 : F64).units = 0 := by decide!

set_option maxRecDepth 100000 in
theorem units_one : (1 : F64).units = (scale : ℤ) := by decide!

set_option maxRecDepth 100000 in
theorem units_half : 2 * (0.5 : F64).units = (scale : ℤ) := by decide!

set_option maxRecDepth 100000 in
theorem representable_half : Representable (0.5 : F64).units := by decide!

/-- For a draw `r` in `[0, 1)` the difference `r - 0.5` lies in `[-0.5, 0.5]`. -/
theorem sub_half_bounds (r : F64) (h0 : 0 ≤ r) (h1 : r < 1) :
    -(0.5 : F64).units ≤ (r - 0.5).units ∧ (r - 0.5).units ≤ (0.5 : F64).units := by
  rw [le_def, units_zero] at h0
  rw [lt_def, units_one] at h1
  have hh := units_half
  rw [sub_def]
  constructor
  · apply round53_ge _ _ _ (by norm_num) (representable_neg _ representable_half)
    push_cast; linarith
  · apply round53_le _ _ _ (by norm_num) representable_half
    push_cast; linarith

/-- Scaling `r - 0.5` by a nonnegative factor `c` stays within `c / 2`, whenever `c / 2`
is a binary64 value `A`. -/
theorem noise_bounds (r c : F64) (A : ℤ) (h0 : 0 ≤ r) (h1 : r < 1) (hA : Representable A)
    (hc : c.units = 2 * A) (hA0 : 0 ≤ A) :
    -A ≤ ((r - 0.5) * c).units ∧ ((r - 0.5) * c).units ≤ A := by
  obtain ⟨hl, hu⟩ := sub_half_bounds r h0 h1
  have hh := units_half
  rw [mul_def]
  constructor
  · apply round53_ge _ _ _ scale_pos (representable_neg _ hA)
    rw [hc]
    nlinarith
  · apply round53_le _ _ _ scale_pos hA
    rw [hc]
    nlinarith

set_option maxRecDepth 100000 in
theorem clamp_bounds_ordered : (99.5 : F64) ≤ 103 := by decide!

theorem timeSeriesValue_bounds (hour : ℕ) (r : F64) :
    (99.5 : F64) ≤ timeSeriesValue hour r ∧ timeSeriesValue hour r ≤ 103 := by
  have h := clamp_bounds_ordered
  simp only [le_def] at h ⊢
  unfold timeSeriesValue Math.min Math.max
  simp only [le_def]
  split <;> split <;> constructor <;> omega

set_option maxRecDepth 100000 in
theorem units_99_5 : (99.5 : F64).units * ((2 : ℕ) : ℤ) = 199 * (scale : ℤ) := by decide!

set_option maxRecDepth 100000 in
theorem units_103 : (103 : F64).units * ((1 : ℕ) : ℤ) = 103 * (scale : ℤ) := by decide!

/-- C1. For every sequence of draws, every value of the data sequence returned by
`generateTimeSeriesData` lies in the closed interval [99.5, 103.0]. -/
theorem generateTimeSeriesData_values_clamped (toLocaleString : JSDate → String)
    (random : ℕ → F64) (fuel : ℕ) (hfuel : 46 ≤ fuel) :
    ∃ d, generateTimeSeriesData toLocaleString random fuel = some d ∧
      ∀ v ∈ d.data, (199 / 2 : ℚ) ≤ v.toRat ∧ v.toRat ≤ 103 := by
  refine ⟨_, generateTimeSeriesData_eq toLocaleString random fuel hfuel, ?_⟩
  intro v hv
  simp only [List.mem_map, List.mem_range] at hv
  obtain ⟨k, _, rfl⟩ := hv
  obtain ⟨hl, hu⟩ := timeSeriesValue_bounds (k % 24) (random k)
  have e1 := toRat_eq_of_units _ _ _ (by norm_num) units_99_5
  have e2 := toRat_eq_of_units _ _ _ (by norm_num) units_103
  have l1 := toRat_le_toRat hl
  have l2 := toRat_le_toRat hu
  rw [e1] at l1
  rw [e2] at l2
  constructor
  · simpa using l1
  · simpa using l2

theorem generateTimeSeriesData_values_clamped_witness :
    ∃ d, generateTimeSeriesData (fun _ => "") (fun _ => 0) 46 = some d ∧
      ∀ v ∈ d.data, (199 / 2 : ℚ) ≤ v.toRat ∧ v.toRat ≤ 103 :=
  generateTimeSeriesData_values_clamped (fun _ => "") (fun _ => 0) 46 (le_refl 46)

set_option maxRecDepth 100000 in
/-- `Math.PI` is the value of the literal `3.141592653589793`. -/
theorem Math_PI_literal : Math.PI = 3.141592653589793 := by decide!

open F64

/-- C2. `generateTimeSeriesData` returns exactly 45 points for every sequence of draws:
the loop runs for the hours 0..44 after 2025-01-01 00:00, so `labels` and `data`
both have length 45. -/
theorem generateTimeSeriesData_length (toLocaleString : JSDate → String)
    (random : ℕ → F64) (fuel : ℕ) (hfuel : 46 ≤ fuel) :
    ∃ d, generateTimeSeriesData toLocaleString random fuel = some d ∧
      d.labels.length = 45 ∧ d.data.length = 45 ∧
      d.labels = (List.range 45).map (fun k => toLocaleString ⟨k⟩) ∧
      (∀ k, k ≤ endDate.hours ↔ k < 45) := by
  refine ⟨_, generateTimeSeriesData_eq toLocaleString random fuel hfuel, ?_, ?_, rfl, ?_⟩
  · simp
  · simp
  · intro k; simp only [endDate]; omega

theorem generateTimeSeriesData_length_witness :
    ∃ d, generateTimeSeriesData (fun _ => "") (fun _ => 0) 46 = some d ∧
      d.labels.length = 45 ∧ d.data.length = 45 ∧
      d.labels = (List.range 45).map (fun k => (fun _ => "") (JSDate.mk k)) ∧
      (∀ k, k ≤ endDate.hours ↔ k < 45) :=
  generateTimeSeriesData_length (fun _ => "") (fun _ => 0) 46 (le_refl 46)

set_option maxRecDepth 100000 in
theorem units_0_4 : (0.4 : F64).units = 2 * (0.2 : F64).units := by decide!

set_option maxRecDepth 100000 in
theorem representable_0_2 : Representable (0.2 : F64).units := by decide!

set_option maxRecDepth 100000 in
theorem units_0_2_nonneg : 0 ≤ (0.2 : F64).units := by decide!

/-- C3. For every index k in 0..44 and draws in [0,1), the k-th value is
clamp(baseline(h) + (r_k - 0.5) * 0.4, 99.5, 103.0) with h = k mod 24 and baseline
100.2 for 2 ≤ h ≤ 6, 102.3 for 14 ≤ h ≤ 18, 100.8 for h ≥ 20 or h ≤ 1, 101.5 for
7..13 and 19; the added noise lies in [-0.2, +0.2] (binary64 arithmetic, the
decimal constants read as binary64 literals). -/
theorem generateTimeSeriesData_value_formula (toLocaleString : JSDate → String)
    (random : ℕ → F64) (fuel : ℕ) (hfuel : 46 ≤ fuel)
    (hr : ∀ k, 0 ≤ random k ∧ random k < 1) :
    ∃ d, generateTimeSeriesData toLocaleString random fuel = some d ∧
      ∀ k < 45, ∃ baseline : F64,
        d.data[k]? = some (Math.min 103 (Math.max 99.5 (baseline + (random k - 0.5) * 0.4))) ∧
        (2 ≤ k % 24 ∧ k % 24 ≤ 6 → baseline = 100.2) ∧
        (14 ≤ k % 24 ∧ k % 24 ≤ 18 → baseline = 102.3) ∧
        (20 ≤ k % 24 ∨ k % 24 ≤ 1 → baseline = 100.8) ∧
        ((7 ≤ k % 24 ∧ k % 24 ≤ 13) ∨ k % 24 = 19 → baseline = 101.5) ∧
        (-0.2 : F64) ≤ (random k - 0.5) * 0.4 ∧ (random k - 0.5) * 0.4 ≤ (0.2 : F64) := by
  refine ⟨_, generateTimeSeriesData_eq toLocaleString random fuel hfuel, ?_⟩
  intro k hk
  refine ⟨baseValue (k % 24), ?_, ?_, ?_, ?_, ?_, ?_, ?_⟩
  · simp [List.getElem?_map, List.getElem?_range, hk, timeSeriesValue]
  · intro h; simp [baseValue, h]
  · intro h
    have h1 : ¬ (2 ≤ k % 24 ∧ k % 24 ≤ 6) := by omega
    simp [baseValue, h, h1]
  · intro h
    have h1 : ¬ (2 ≤ k % 24 ∧ k % 24 ≤ 6) := by omega
    have h2 : ¬ (14 ≤ k % 24 ∧ k % 24 ≤ 18) := by omega
    simp only [baseValue, h1, h2, h, if_false, if_true]
  · intro h
    have h1 : ¬ (2 ≤ k % 24 ∧ k % 24 ≤ 6) := by omega
    have h2 : ¬ (14 ≤ k % 24 ∧ k % 24 ≤ 18) := by omega
    have h3 : ¬ (20 ≤ k % 24 ∨ k % 24 ≤ 1) := by omega
    simp only [baseValue, h1, h2, h3, if_false]
  · have := (noise_bounds (random k) 0.4 _ (hr k).1 (hr k).2 representable_0_2 units_0_4
      units_0_2_nonneg).1
    rw [le_def, neg_units]; exact this
  · exact (noise_bounds (random k) 0.4 _ (hr k).1 (hr k).2 representable_0_2 units_0_4
      units_0_2_nonneg).2

open F64

set_option maxRecDepth 100000 in
theorem half_is_draw : (0 : F64) ≤ 0.5 ∧ (0.5 : F64) < 1 := by decide!

theorem generateTimeSeriesData_value_formula_witness :
    ∃ d, generateTimeSeriesData (fun _ => "") (fun _ => 0.5) 46 = some d ∧
      ∀ k < 45, ∃ baseline : F64,
        d.data[k]? = some (Math.min 103 (Math.max 99.5 (baseline + ((0.5 : F64) - 0.5) * 0.4))) ∧
        (2 ≤ k % 24 ∧ k % 24 ≤ 6 → baseline = 100.2) ∧
        (14 ≤ k % 24 ∧ k % 24 ≤ 18 → baseline = 102.3) ∧
        (20 ≤ k % 24 ∨ k % 24 ≤ 1 → baseline = 100.8) ∧
        ((7 ≤ k % 24 ∧ k % 24 ≤ 13) ∨ k % 24 = 19 → baseline = 101.5) ∧
        (-0.2 : F64) ≤ ((0.5 : F64) - 0.5) * 0.4 ∧ ((0.5 : F64) - 0.5) * 0.4 ≤ (0.2 : F64) :=
  generateTimeSeriesData_value_formula (fun _ => "") (fun _ => 0.5) 46 (le_refl 46)
    (fun _ => half_is_draw)

/-- A sum of a base `b` and a noise within `±c` stays within `±c` of `b`, when
`b - c` and `b + c` are binary64 values. -/
theorem sum_within (B N : F64) (b c : ℤ) (hB : B.units = b * (scale : ℤ))
    (hN : -(c * (scale : ℤ)) ≤ N.units ∧ N.units ≤ c * (scale : ℤ))
    (hlo : Representable ((b - c) * (scale : ℤ))) (hhi : Representable ((b + c) * (scale : ℤ))) :
    |(B + N).toRat - (b : ℚ)| ≤ (c : ℚ) := by
  have hs : (0 : ℚ) < (scale : ℚ) := by exact_mod_cast scale_pos
  have h1 : (b - c) * (scale : ℤ) ≤ (B + N).units := by
    rw [add_def]
    apply round53_ge _ _ _ (by norm_num) hlo
    push_cast; linarith [hN.1]
  have h2 : (B + N).units ≤ (b + c) * (scale : ℤ) := by
    rw [add_def]
    apply round53_le _ _ _ (by norm_num) hhi
    push_cast; linarith [hN.2]
  have h1q : ((b : ℚ) - c) * (scale : ℚ) ≤ ((B + N).units : ℚ) := by exact_mod_cast h1
  have h2q : ((B + N).units : ℚ) ≤ ((b : ℚ) + c) * (scale : ℚ) := by exact_mod_cast h2
  unfold toRat
  rw [abs_le]
  constructor
  · rw [le_sub_iff_add_le, le_div_iff₀ hs]; linarith
  · rw [sub_le_iff_le_add, div_le_iff₀ hs]; linarith

set_option maxRecDepth 100000 in
theorem national_base : ∀ i < 12, (70 * seasonalFactor i).units =
    (if i = 6 ∨ i = 7 ∨ i = 8 then 98 else if i = 0 ∨ i = 1 ∨ i = 10 ∨ i = 11 then 56 else 77)
      * (scale : ℤ) := by decide!

set_option maxRecDepth 100000 in
theorem east_base : ∀ i < 12, (30 * seasonalFactor i).units =
    (if i = 6 ∨ i = 7 ∨ i = 8 then 42 else if i = 0 ∨ i = 1 ∨ i = 10 ∨ i = 11 then 24 else 33)
      * (scale : ℤ) := by decide!

set_option maxRecDepth 100000 in
theorem sales_representable :
    (Representable (94 * (scale : ℤ)) ∧ Representable (102 * (scale : ℤ))) ∧
    (Representable (52 * (scale : ℤ)) ∧ Representable (60 * (scale : ℤ))) ∧
    (Representable (73 * (scale : ℤ)) ∧ Representable (81 * (scale : ℤ))) ∧
    (Representable (40 * (scale : ℤ)) ∧ Representable (44 * (scale : ℤ))) ∧
    (Representable (22 * (scale : ℤ)) ∧ Representable (26 * (scale : ℤ))) ∧
    (Representable (31 * (scale : ℤ)) ∧ Representable (35 * (scale : ℤ))) ∧
    Representable (4 * (scale : ℤ)) ∧ Representable (2 * (scale : ℤ)) := by decide!

set_option maxRecDepth 100000 in
theorem units_8_4 : (8 : F64).units = 2 * (4 * (scale : ℤ)) ∧ (4 : F64).units = 2 * (2 * (scale : ℤ)) := by
  decide!

theorem national_within (i : ℕ) (hi : i < 12) (r : F64) (h0 : 0 ≤ r) (h1 : r < 1) :
    |(70 * seasonalFactor i + (r - 0.5) * 8).toRat - 70 * specSeasonalMultiplier i| ≤ 4 := by
  obtain ⟨⟨a1, a2⟩, ⟨a3, a4⟩, ⟨a5, a6⟩, -, -, -, a7, -⟩ := sales_representable
  have hN := noise_bounds r 8 (4 * (scale : ℤ)) h0 h1 a7 units_8_4.1 (by have : (0 : ℤ) ≤ (scale : ℤ) := Int.ofNat_nonneg _; omega)
  rw [← neg_mul] at hN
  have hB := national_base i hi
  unfold specSeasonalMultiplier
  split_ifs at hB ⊢ with c1 c2
  · have := sum_within _ _ 98 4 hB (by simpa using hN) (by simpa using a1) (by simpa using a2)
    norm_num at this ⊢; exact this
  · have := sum_within _ _ 56 4 hB (by simpa using hN) (by simpa using a3) (by simpa using a4)
    norm_num at this ⊢; exact this
  · have := sum_within _ _ 77 4 hB (by simpa using hN) (by simpa using a5) (by simpa using a6)
    norm_num at this ⊢; exact this

theorem east_within (i : ℕ) (hi : i < 12) (r : F64) (h0 : 0 ≤ r) (h1 : r < 1) :
    |(30 * seasonalFactor i + (r - 0.5) * 4).toRat - 30 * specSeasonalMultiplier i| ≤ 2 := by
  obtain ⟨-, -, -, ⟨a1, a2⟩, ⟨a3, a4⟩, ⟨a5, a6⟩, -, a7⟩ := sales_representable
  have hN := noise_bounds r 4 (2 * (scale : ℤ)) h0 h1 a7 units_8_4.2 (by have : (0 : ℤ) ≤ (scale : ℤ) := Int.ofNat_nonneg _; omega)
  rw [← neg_mul] at hN
  have hB := east_base i hi
  unfold specSeasonalMultiplier
  split_ifs at hB ⊢ with c1 c2
  · have := sum_within _ _ 42 2 hB (by simpa using hN) (by simpa using a1) (by simpa using a2)
    norm_num at this ⊢; exact this
  · have := sum_within _ _ 24 2 hB (by simpa using hN) (by simpa using a3) (by simpa using a4)
    norm_num at this ⊢; exact this
  · have := sum_within _ _ 33 2 hB (by simpa using hN) (by simpa using a5) (by simpa using a6)
    norm_num at this ⊢; exact this

/-- C4. For all draws in [0,1), `generateSalesData` returns months, nationalSales and
eastChinaSales of exactly 12 entries each, and for every month index i in 0..11 the
national value is within 4 of 70*m(i) and the regional value within 2 of 30*m(i),
m being the seasonal multiplier 1.4 / 0.8 / 1.1 of the specification. -/
theorem generateSalesData_seasonal (random : ℕ → F64) (fuel : ℕ) (hfuel : 13 ≤ fuel)
    (hr : ∀ k, 0 ≤ random k ∧ random k < 1) :
    ∃ d, generateSalesData random fuel = some d ∧
      d.months.length = 12 ∧ d.nationalSales.length = 12 ∧ d.eastChinaSales.length = 12 ∧
      ∀ i < 12, ∃ n e : F64, d.nationalSales[i]? = some n ∧ d.eastChinaSales[i]? = some e ∧
        |n.toRat - 70 * specSeasonalMultiplier i| ≤ 4 ∧
        |e.toRat - 30 * specSeasonalMultiplier i| ≤ 2 := by
  refine ⟨_, generateSalesData_eq random fuel hfuel, ?_, ?_, ?_, ?_⟩
  · rfl
  · simp
  · simp
  · intro i hi
    refine ⟨70 * seasonalFactor i + (random (2 * i) - 0.5) * 8,
      30 * seasonalFactor i + (random (2 * i + 1) - 0.5) * 4, ?_, ?_,
      national_within i hi _ (hr _).1 (hr _).2, east_within i hi _ (hr _).1 (hr _).2⟩
    · simp [List.getElem?_map, List.getElem?_range, hi]
    · simp [List.getElem?_map, List.getElem?_range, hi]

theorem generateSalesData_seasonal_witness :
    ∃ d, generateSalesData (fun _ => 0.5) 13 = some d ∧
      d.months.length = 12 ∧ d.nationalSales.length = 12 ∧ d.eastChinaSales.length = 12 ∧
      ∀ i < 12, ∃ n e : F64, d.nationalSales[i]? = some n ∧ d.eastChinaSales[i]? = some e ∧
        |n.toRat - 70 * specSeasonalMultiplier i| ≤ 4 ∧
        |e.toRat - 30 * specSeasonalMultiplier i| ≤ 2 :=
  generateSalesData_seasonal (fun _ => 0.5) 13 (le_refl 13) (fun _ => half_is_draw)

open F64

/-! ### Closed form of the quadratic loop -/

theorem quadratic_iterate (n : ℕ) :
    quadraticStep^[n] { x := -2, xValues := [], yValues := [] }
      = { x := quadraticCandidate n
          xValues := (List.range n).map quadraticCandidate
          yValues := (List.range n).map fun k => quadraticCandidate k * quadraticCandidate k } := by
  induction n with
  | zero => rfl
  | succ n ih =>
    rw [Function.iterate_succ_apply', ih]
    simp only [quadraticStep, quadraticCandidate, List.range_succ, List.map_append,
      List.map_cons, List.map_nil, Function.iterate_succ_apply']

set_option maxRecDepth 100000 in
theorem quadratic_run : ∀ i < 80, quadraticCandidate i ≤ 2 := by decide!

set_option maxRecDepth 100000 in
theorem quadratic_stop : ¬ quadraticCandidate 80 ≤ 2 := by decide!

theorem generateQuadraticData_eq (fuel : ℕ) (hfuel : 81 ≤ fuel) :
    generateQuadraticData fuel
      = some { xValues := (List.range 80).map quadraticCandidate
               yValues := (List.range 80).map fun k =>
                 quadraticCandidate k * quadraticCandidate k } := by
  unfold generateQuadraticData
  rw [forLoop_iterate _ _ 80 fuel _ (by omega)]
  · rw [quadratic_iterate]; rfl
  · intro i hi
    rw [quadratic_iterate]
    simp only [quadraticCond, decide_eq_true_eq]
    exact quadratic_run i hi
  · rw [quadratic_iterate]
    simp only [quadraticCond, decide_eq_false_iff_not]
    exact quadratic_stop

set_option maxRecDepth 100000 in
/-- C5. `getProgrammingLanguageData` returns the six languages, the votes
[450,380,290,180,120,90] whose sum is 1510, and the percentages
["29.8","25.2","19.2","11.9","7.9","6.0"], each being `toFixed(1)` of vote/1510*100,
that is the multiple of 0.1 nearest to it written with one fractional digit. -/
theorem getProgrammingLanguageData_table :
    getProgrammingLanguageData.languages
        = ["Python", "JavaScript", "Java", "C#", "Go", "TypeScript"] ∧
      getProgrammingLanguageData.votes = [450, 380, 290, 180, 120, 90] ∧
      getProgrammingLanguageData.votes.foldl (fun sum v => sum + v) 0 = 1510 ∧
      getProgrammingLanguageData.percentages = ["29.8", "25.2", "19.2", "11.9", "7.9", "6.0"] ∧
      getProgrammingLanguageData.percentages
        = getProgrammingLanguageData.votes.map (fun v => toFixed (v / 1510 * 100) 1) ∧
      ∀ p ∈ List.zip getProgrammingLanguageData.votes [298, 252, 192, 119, 79, 60],
        2 * |(p.1 / 1510 * 100).units * 10 - p.2 * (scale : ℤ)| ≤ (scale : ℤ) := by
  decide!

set_option maxRecDepth 100000 in
theorem quadratic_ends :
    quadraticCandidate 0 = -2 ∧ (∀ k < 80, quadraticCandidate k ≠ 2) ∧
      (quadraticCandidate 79).units * 1000 < 1951 * (scale : ℤ) ∧
      2 < quadraticCandidate 80 := by
  decide!

/-- C6 (as the code behaves). With any bound of at least 81 condition tests the loop of
`generateQuadraticData` ends after 80 iterations, not 81: the first sample is -2,
the value reached after 80 additions of 0.05 is above 2, so 2 is not a sample and
the last sample is below 1.951. -/
theorem generateQuadraticData_eighty_samples (fuel : ℕ) :
    ∃ d, generateQuadraticData (fuel + 81) = some d ∧
      d.xValues.length = 80 ∧ d.yValues.length = 80 ∧
      d.xValues.head? = some (-2) ∧ (2 : F64) ∉ d.xValues ∧
      (∃ last, d.xValues.getLast? = some last ∧ last.toRat < 1951 / 1000) ∧
      (2 : F64) < quadraticCandidate 80 := by
  obtain ⟨h0, hne, hlast, hstop⟩ := quadratic_ends
  refine ⟨_, generateQuadraticData_eq (fuel + 81) (by omega), by simp, by simp, ?_, ?_, ?_, hstop⟩
  · simp [List.range_succ_eq_map, h0]
  · simp only [List.mem_map, List.mem_range, not_exists, not_and]
    intro k hk h
    exact hne k hk h
  · refine ⟨quadraticCandidate 79, ?_, ?_⟩
    · simp [List.range_succ]
    · unfold toRat
      have hs : (0 : ℚ) < (scale : ℚ) := by exact_mod_cast scale_pos
      have : ((quadraticCandidate 79).units : ℚ) * 1000 < 1951 * (scale : ℚ) := by
        exact_mod_cast hlast
      rw [div_lt_div_iff₀ hs (by norm_num)]
      linarith

/-- C7. In the output of `generateQuadraticData`, xValues and yValues have the same
length and at every index i, yValues[i] is exactly xValues[i] * xValues[i]
(the binary64 product). -/
theorem generateQuadraticData_squares (fuel : ℕ) (hfuel : 81 ≤ fuel) :
    ∃ d, generateQuadraticData fuel = some d ∧
      d.xValues.length = d.yValues.length ∧
      d.yValues = d.xValues.map (fun x => x * x) ∧
      ∀ (i : ℕ) (x : F64), d.xValues[i]? = some x → d.yValues[i]? = some (x * x) := by
  refine ⟨_, generateQuadraticData_eq fuel hfuel, by simp, by simp, ?_⟩
  intro i x hx
  simp only [List.getElem?_map] at hx ⊢
  cases h : (List.range 80)[i]? with
  | none => simp [h] at hx
  | some k =>
    simp only [h, Option.map_some', Option.some.injEq] at hx ⊢
    rw [← hx]

theorem generateQuadraticData_squares_witness :
    ∃ d, generateQuadraticData 81 = some d ∧
      d.xValues.length = d.yValues.length ∧
      d.yValues = d.xValues.map (fun x => x * x) ∧
      ∀ (i : ℕ) (x : F64), d.xValues[i]? = some x → d.yValues[i]? = some (x * x) :=
  generateQuadraticData_squares 81 (le_refl 81)

open F64

/-! ### Closed form of the tangent loop -/

theorem tan_iterate (tan : F64 → F64) (n : ℕ) :
    (tanStep tan)^[n] { x := -Math.PI / 2 + 0.1, xValues := [], yValues := [] }
      = { x := tanCandidate n
          xValues := ((List.range n).map tanCandidate).filter
            fun x => decide (-3 ≤ tan x ∧ tan x ≤ 3)
          yValues := (((List.range n).map tanCandidate).filter
            fun x => decide (-3 ≤ tan x ∧ tan x ≤ 3)).map tan } := by
  induction n with
  | zero => rfl
  | succ n ih =>
    rw [Function.iterate_succ_apply', ih]
    have hsucc : tanCandidate (n + 1) = tanCandidate n + 0.05 := by
      unfold tanCandidate; rw [Function.iterate_succ_apply']
    rw [hsucc]
    unfold tanStep
    by_cases h : -3 ≤ tan (tanCandidate n) ∧ tan (tanCandidate n) ≤ 3
    · simp [h, List.range_succ, List.filter_append]
    · simp [h, List.range_succ, List.filter_append]

set_option maxRecDepth 100000 in
theorem tan_run : ∀ k < 59, tanCandidate k < Math.PI / 2 - 0.1 := by decide!

set_option maxRecDepth 100000 in
theorem tan_stop : ¬ tanCandidate 59 < Math.PI / 2 - 0.1 := by decide!

theorem generateTanData_eq (tan : F64 → F64) (fuel : ℕ) (hfuel : 60 ≤ fuel) :
    generateTanData tan fuel
      = some { xValues := ((List.range 59).map tanCandidate).filter
                 fun x => decide (-3 ≤ tan x ∧ tan x ≤ 3)
               yValues := (((List.range 59).map tanCandidate).filter
                 fun x => decide (-3 ≤ tan x ∧ tan x ≤ 3)).map tan } := by
  unfold generateTanData
  rw [forLoop_iterate _ _ 59 fuel _ (by omega)]
  · rw [tan_iterate]; rfl
  · intro i hi
    rw [tan_iterate]
    simp only [tanCond, decide_eq_true_eq]
    exact tan_run i hi
  · rw [tan_iterate]
    simp only [tanCond, decide_eq_false_iff_not]
    exact tan_stop

set_option maxRecDepth 100000 in
theorem tan_candidate_range : ∀ k < 59,
    -148 * (scale : ℤ) ≤ (tanCandidate k).units * 100 ∧
      (tanCandidate k).units * 100 ≤ 148 * (scale : ℤ) := by decide!

set_option maxRecDepth 100000 in
theorem units_three : (3 : F64).units = 3 * (scale : ℤ) := by decide!

/-- The real number a binary64 value stands for, from its units. -/
theorem toRat_cast_real (x : F64) : ((x.toRat : ℚ) : ℝ) = (x.units : ℝ) / (scale : ℝ) := by
  unfold toRat; push_cast; rfl

theorem tan_candidate_real (k : ℕ) (hk : k < 59) :
    -(Real.pi / 2) < (((tanCandidate k).toRat : ℚ) : ℝ) ∧
      (((tanCandidate k).toRat : ℚ) : ℝ) < Real.pi / 2 := by
  obtain ⟨hl, hu⟩ := tan_candidate_range k hk
  have hpos := scale_pos
  have hpi := Real.pi_gt_three
  rw [toRat_cast_real]
  generalize scale = S at hl hu hpos ⊢
  have hs : (0 : ℝ) < (S : ℝ) := by exact_mod_cast hpos
  have hlr : -148 * (S : ℝ) ≤ ((tanCandidate k).units : ℝ) * 100 := by exact_mod_cast hl
  have hur : ((tanCandidate k).units : ℝ) * 100 ≤ 148 * (S : ℝ) := by exact_mod_cast hu
  constructor
  · rw [lt_div_iff₀ hs]; nlinarith
  · rw [div_lt_iff₀ hs]; nlinarith

/-- C8. In the output of `generateTanData`, xValues and yValues have the same length and
at every retained index: y is `Math.tan` of x, -3 ≤ y ≤ 3, and x lies strictly inside
(-π/2, π/2), where cos x ≠ 0; conversely every value the loop variable takes below
`Math.PI/2 - 0.1` (there are 59 of them) whose tangent is below -3 or above 3 is absent
from xValues. -/
theorem generateTanData_retained (tan : F64 → F64) (fuel : ℕ) (hfuel : 60 ≤ fuel) :
    ∃ d, generateTanData tan fuel = some d ∧
      d.xValues.length = d.yValues.length ∧
      (∀ (i : ℕ) (x : F64), d.xValues[i]? = some x →
        d.yValues[i]? = some (tan x) ∧
        ((-3 : F64) ≤ tan x ∧ tan x ≤ 3) ∧
        (-3 ≤ (tan x).toRat ∧ (tan x).toRat ≤ 3) ∧
        (-(Real.pi / 2) < ((x.toRat : ℚ) : ℝ) ∧ ((x.toRat : ℚ) : ℝ) < Real.pi / 2) ∧
        Real.cos ((x.toRat : ℚ) : ℝ) ≠ 0) ∧
      (∀ k < 59, tanCandidate k < Math.PI / 2 - 0.1) ∧
      ¬ tanCandidate 59 < Math.PI / 2 - 0.1 ∧
      ∀ k < 59, (tan (tanCandidate k) < -3 ∨ 3 < tan (tanCandidate k)) →
        tanCandidate k ∉ d.xValues := by
  refine ⟨_, generateTanData_eq tan fuel hfuel, by simp, ?_, tan_run, tan_stop, ?_⟩
  · intro i x hx
    have hmem : x ∈ ((List.range 59).map tanCandidate).filter
        fun x => decide (-3 ≤ tan x ∧ tan x ≤ 3) := List.getElem?_mem hx
    rw [List.mem_filter] at hmem
    obtain ⟨hm, hkeep⟩ := hmem
    simp only [decide_eq_true_eq] at hkeep
    simp only [List.mem_map, List.mem_range] at hm
    obtain ⟨k, hk, rfl⟩ := hm
    have hreal := tan_candidate_real k hk
    refine ⟨?_, hkeep, ?_, hreal, ?_⟩
    · simp only [List.getElem?_map, hx, Option.map_some']
    · have h3 := units_three
      have hpos := scale_pos
      obtain ⟨ha, hb⟩ := hkeep
      rw [le_def, neg_units, h3] at ha
      rw [le_def, h3] at hb
      unfold toRat
      generalize scale = S at ha hb hpos ⊢
      have hs : (0 : ℚ) < (S : ℚ) := by exact_mod_cast hpos
      have haq : -(3 * (S : ℚ)) ≤ ((tan (tanCandidate k)).units : ℚ) := by exact_mod_cast ha
      have hbq : ((tan (tanCandidate k)).units : ℚ) ≤ 3 * (S : ℚ) := by exact_mod_cast hb
      constructor
      · rw [le_div_iff₀ hs]; linarith
      · rw [div_le_iff₀ hs]; linarith
    · exact ne_of_gt (Real.cos_pos_of_mem_Ioo ⟨hreal.1, hreal.2⟩)
  · intro k _ hout hmem
    rw [List.mem_filter] at hmem
    have hkeep := hmem.2
    simp only [decide_eq_true_eq] at hkeep
    rw [lt_def, neg_units] at hout
    rw [lt_def] at hout
    rw [le_def, neg_units, le_def] at hkeep
    omega

theorem generateTanData_retained_witness :
    ∃ d, generateTanData (fun _ => 0) 60 = some d ∧
      d.xValues.length = d.yValues.length ∧
      (∀ (i : ℕ) (x : F64), d.xValues[i]? = some x →
        d.yValues[i]? = some ((fun _ => (0 : F64)) x) ∧
        ((-3 : F64) ≤ (fun _ => (0 : F64)) x ∧ (fun _ => (0 : F64)) x ≤ 3) ∧
        (-3 ≤ ((fun _ => (0 : F64)) x).toRat ∧ ((fun _ => (0 : F64)) x).toRat ≤ 3) ∧
        (-(Real.pi / 2) < ((x.toRat : ℚ) : ℝ) ∧ ((x.toRat : ℚ) : ℝ) < Real.pi / 2) ∧
        Real.cos ((x.toRat : ℚ) : ℝ) ≠ 0) ∧
      (∀ k < 59, tanCandidate k < Math.PI / 2 - 0.1) ∧
      ¬ tanCandidate 59 < Math.PI / 2 - 0.1 ∧
      ∀ k < 59, ((fun _ => (0 : F64)) (tanCandidate k) < -3 ∨
          3 < (fun _ => (0 : F64)) (tanCandidate k)) →
        tanCandidate k ∉ d.xValues :=
  generateTanData_retained (fun _ => 0) 60 (le_refl 60)

open F64

set_option maxRecDepth 100000 in
theorem tan_first_candidate_range :
    -14708 * (scale : ℤ) ≤ (tanCandidate 0).units * 10000 ∧
      (tanCandidate 0).units * 10000 ≤ -14707 * (scale : ℤ) := by decide!

/-- The tangent of the first value of the loop variable, about -9.97. -/
theorem tan_first_candidate_real :
    -11 < Real.tan (((tanCandidate 0).toRat : ℚ) : ℝ) ∧
      Real.tan (((tanCandidate 0).toRat : ℚ) : ℝ) < -9 := by
  obtain ⟨hl, hu⟩ := tan_first_candidate_range
  have hpos := scale_pos
  rw [toRat_cast_real]
  generalize scale = S at hl hu hpos ⊢
  generalize (tanCandidate 0).units = u at hl hu ⊢
  have hs : (0 : ℝ) < (S : ℝ) := by exact_mod_cast hpos
  have hlr : -14708 * (S : ℝ) ≤ (u : ℝ) * 10000 := by exact_mod_cast hl
  have hur : (u : ℝ) * 10000 ≤ -14707 * (S : ℝ) := by exact_mod_cast hu
  obtain ⟨x, hx⟩ : ∃ x : ℝ, x = (u : ℝ) / (S : ℝ) := ⟨_, rfl⟩
  rw [← hx]
  have hx1 : -14708 / 10000 ≤ x := by
    rw [hx, le_div_iff₀ hs]; linarith
  have hx2 : x ≤ -14707 / 10000 := by
    rw [hx, div_le_iff₀ hs]; linarith
  have hp1 := Real.pi_gt_d6
  have hp2 := Real.pi_lt_d6
  obtain ⟨δ, hδ⟩ : ∃ δ : ℝ, δ = Real.pi / 2 + x := ⟨_, rfl⟩
  have hδ1 : 999 / 10000 < δ := by rw [hδ]; norm_num at hp1 ⊢; linarith
  have hδ2 : δ < 1001 / 10000 := by rw [hδ]; norm_num at hp2 ⊢; linarith
  have hδ0 : 0 < δ := by linarith
  have hδpi : δ < Real.pi / 2 := by linarith
  have hxe : x = -(Real.pi / 2 - δ) := by rw [hδ]; ring
  have htan : Real.tan x = -(Real.tan δ)⁻¹ := by
    rw [hxe, Real.tan_neg, Real.tan_pi_div_two_sub]
  have hlow : δ < Real.tan δ := Real.lt_tan hδ0 hδpi
  have hcos : 1 - δ ^ 2 / 2 ≤ Real.cos δ := Real.one_sub_sq_div_two_le_cos
  have hsin : Real.sin δ ≤ δ := Real.sin_le hδ0.le
  have hc : (0 : ℝ) < 1 - δ ^ 2 / 2 := by nlinarith
  have hcpos : 0 < Real.cos δ := lt_of_lt_of_le hc hcos
  have hup : Real.tan δ < 1 / 9 := by
    rw [Real.tan_eq_sin_div_cos, div_lt_iff₀ hcpos]
    nlinarith
  have htpos : 0 < Real.tan δ := lt_trans hδ0 hlow
  rw [htan]
  constructor
  · have : (Real.tan δ)⁻¹ < 11 := by
      rw [inv_lt_comm₀ htpos (by norm_num)]
      norm_num; linarith
    linarith
  · have : 9 < (Real.tan δ)⁻¹ := by
      rw [lt_inv_comm₀ (by norm_num) htpos]
      norm_num at hup ⊢; linarith
    linarith

set_option maxRecDepth 100000 in
theorem units_ten : (10 : F64).units = 10 * (scale : ℤ) := by decide!

/-- A binary64 value whose real value is below -3 compares below the literal `-3`. -/
theorem lt_neg_three_of_real (y : F64) (h : ((y.toRat : ℚ) : ℝ) < -3) : y < -3 := by
  have h3 := units_three
  have hpos := scale_pos
  rw [lt_def, neg_units, h3]
  rw [toRat_cast_real] at h
  generalize scale = S at h hpos ⊢
  have hs : (0 : ℝ) < (S : ℝ) := by exact_mod_cast hpos
  rw [div_lt_iff₀ hs] at h
  have : (y.units : ℝ) < ((-(3 * (S : ℤ)) : ℤ) : ℝ) := by push_cast; linarith
  exact_mod_cast this

/-- C9. The sequence returned by `generateTanData` is strictly shorter than the one
returned by `generateQuadraticData`, and filtering removes samples: the first value
of the loop variable, `-Math.PI/2 + 0.1`, is a candidate whose tangent exceeds 3 in
absolute value, and it is dropped (`Math.tan` being within 1 of the tangent there). -/
theorem generateTanData_shorter (tan : F64 → F64) (fuelT fuelQ : ℕ) (hT : 60 ≤ fuelT)
    (hQ : 81 ≤ fuelQ)
    (hacc : |(((tan (tanCandidate 0)).toRat : ℚ) : ℝ)
        - Real.tan (((tanCandidate 0).toRat : ℚ) : ℝ)| ≤ 1) :
    ∃ t q, generateTanData tan fuelT = some t ∧ generateQuadraticData fuelQ = some q ∧
      t.xValues.length < q.xValues.length ∧ t.yValues.length < q.yValues.length ∧
      tanCandidate 0 < Math.PI / 2 - 0.1 ∧
      3 < |Real.tan (((tanCandidate 0).toRat : ℚ) : ℝ)| ∧
      tan (tanCandidate 0) < -3 ∧
      tanCandidate 0 ∉ t.xValues := by
  obtain ⟨hr1, hr2⟩ := tan_first_candidate_real
  have hdrop : tan (tanCandidate 0) < -3 := by
    apply lt_neg_three_of_real
    have := (abs_le.mp hacc).2
    linarith
  have hlen : (((List.range 59).map tanCandidate).filter
      fun x => decide (-3 ≤ tan x ∧ tan x ≤ 3)).length ≤ 59 := by
    have := List.length_filter_le (fun x => decide (-3 ≤ tan x ∧ tan x ≤ 3))
      ((List.range 59).map tanCandidate)
    simpa using this
  refine ⟨_, _, generateTanData_eq tan fuelT hT, generateQuadraticData_eq fuelQ hQ,
    ?_, ?_, tan_run 0 (by norm_num), ?_, hdrop, ?_⟩
  · simp only [List.length_map, List.length_range]; omega
  · simp only [List.length_map, List.length_range]; omega
  · rw [abs_of_neg (by linarith)]; linarith
  · intro hmem
    rw [List.mem_filter] at hmem
    have hkeep := hmem.2
    simp only [decide_eq_true_eq] at hkeep
    rw [lt_def, neg_units] at hdrop
    rw [le_def, neg_units] at hkeep
    omega

theorem generateTanData_shorter_witness :
    ∃ t q, generateTanData (fun _ => -10) 60 = some t ∧ generateQuadraticData 81 = some q ∧
      t.xValues.length < q.xValues.length ∧ t.yValues.length < q.yValues.length ∧
      tanCandidate 0 < Math.PI / 2 - 0.1 ∧
      3 < |Real.tan (((tanCandidate 0).toRat : ℚ) : ℝ)| ∧
      (fun _ => (-10 : F64)) (tanCandidate 0) < -3 ∧
      tanCandidate 0 ∉ t.xValues :=
  generateTanData_shorter (fun _ => -10) 60 81 (le_refl 60) (le_refl 81) (by
    have h10 : (((-10 : F64).toRat : ℚ) : ℝ) = -10 := by
      have hpos := scale_pos
      have hu := units_ten
      rw [toRat_cast_real, neg_units, hu]
      generalize scale = S at hpos ⊢
      have hs : (0 : ℝ) < (S : ℝ) := by exact_mod_cast hpos
      push_cast
      field_simp
    obtain ⟨hr1, hr2⟩ := tan_first_candidate_real
    show |(((-10 : F64).toRat : ℚ) : ℝ) - Real.tan (((tanCandidate 0).toRat : ℚ) : ℝ)| ≤ 1
    rw [h10, abs_le]
    constructor <;> linarith)

open F64

/-! ### The clamp of the time series is never active -/

set_option maxRecDepth 100000 in
theorem baseline_margins :
    ((100 : F64).units ≤ (100.2 : F64).units - (0.2 : F64).units ∧
      (100.2 : F64).units + (0.2 : F64).units ≤ (102.5 : F64).units) ∧
    ((100 : F64).units ≤ (102.3 : F64).units - (0.2 : F64).units ∧
      (102.3 : F64).units + (0.2 : F64).units ≤ (102.5 : F64).units) ∧
    ((100 : F64).units ≤ (100.8 : F64).units - (0.2 : F64).units ∧
      (100.8 : F64).units + (0.2 : F64).units ≤ (102.5 : F64).units) ∧
    ((100 : F64).units ≤ (101.5 : F64).units - (0.2 : F64).units ∧
      (101.5 : F64).units + (0.2 : F64).units ≤ (102.5 : F64).units) := by decide!

theorem baseValue_margins (hour : ℕ) :
    (100 : F64).units ≤ (baseValue hour).units - (0.2 : F64).units ∧
      (baseValue hour).units + (0.2 : F64).units ≤ (102.5 : F64).units := by
  obtain ⟨h1, h2, h3, h4⟩ := baseline_margins
  unfold baseValue
  split_ifs
  · exact h1
  · exact h2
  · exact h3
  · exact h4

set_option maxRecDepth 100000 in
theorem clamp_margins :
    Representable (100 : F64).units ∧ Representable (102.5 : F64).units ∧
      (99.5 : F64).units < (100 : F64).units ∧ (102.5 : F64).units < (103 : F64).units ∧
      (100 : F64).units * ((1 : ℕ) : ℤ) = 100 * (scale : ℤ) ∧
      (102.5 : F64).units * ((2 : ℕ) : ℤ) = 205 * (scale : ℤ) := by decide!

/-- Before clamping, a value of the time series is between 100 and 102.5. -/
theorem unclamped_bounds (hour : ℕ) (r : F64) (h0 : 0 ≤ r) (h1 : r < 1) :
    (100 : F64) ≤ baseValue hour + (r - 0.5) * 0.4 ∧
      baseValue hour + (r - 0.5) * 0.4 ≤ (102.5 : F64) := by
  obtain ⟨hlo, hhi⟩ := baseValue_margins hour
  obtain ⟨hn1, hn2⟩ := noise_bounds r 0.4 _ h0 h1 representable_0_2 units_0_4 units_0_2_nonneg
  obtain ⟨r1, r2, -, -, -, -⟩ := clamp_margins
  rw [le_def, le_def, add_def]
  constructor
  · apply round53_ge _ _ _ (by norm_num) r1
    push_cast; linarith
  · apply round53_le _ _ _ (by norm_num) r2
    push_cast; linarith

theorem timeSeriesValue_unclamped (hour : ℕ) (r : F64) (h0 : 0 ≤ r) (h1 : r < 1) :
    Math.min 103 (Math.max 99.5 (baseValue hour + (r - 0.5) * 0.4))
      = baseValue hour + (r - 0.5) * 0.4 := by
  obtain ⟨hl, hu⟩ := unclamped_bounds hour r h0 h1
  obtain ⟨-, -, s1, s2, -, -⟩ := clamp_margins
  rw [le_def] at hl hu
  have e1 : Math.max 99.5 (baseValue hour + (r - 0.5) * 0.4)
      = baseValue hour + (r - 0.5) * 0.4 := by
    unfold Math.max
    rw [if_pos]
    rw [le_def]; omega
  rw [e1]
  unfold Math.min
  rw [if_neg]
  rw [le_def]; omega

/-- C13. The clamp in `generateTimeSeriesData` never changes a value: for draws in
[0,1) each pushed value is baseline + (r - 0.5) * 0.4 itself, which lies in
[100.0, 102.5], strictly between the bounds 99.5 and 103 of the clamp, so neither
bound is attained. -/
theorem generateTimeSeriesData_clamp_inactive (toLocaleString : JSDate → String)
    (random : ℕ → F64) (fuel : ℕ) (hfuel : 46 ≤ fuel)
    (hr : ∀ k, 0 ≤ random k ∧ random k < 1) :
    ∃ d, generateTimeSeriesData toLocaleString random fuel = some d ∧
      ∀ k < 45,
        Math.min 103 (Math.max 99.5 (baseValue (k % 24) + (random k - 0.5) * 0.4))
          = baseValue (k % 24) + (random k - 0.5) * 0.4 ∧
        d.data[k]? = some (baseValue (k % 24) + (random k - 0.5) * 0.4) ∧
        (100 ≤ (baseValue (k % 24) + (random k - 0.5) * 0.4).toRat ∧
          (baseValue (k % 24) + (random k - 0.5) * 0.4).toRat ≤ 205 / 2) ∧
        ((99.5 : F64) < baseValue (k % 24) + (random k - 0.5) * 0.4 ∧
          baseValue (k % 24) + (random k - 0.5) * 0.4 < (103 : F64)) := by
  refine ⟨_, generateTimeSeriesData_eq toLocaleString random fuel hfuel, ?_⟩
  intro k hk
  have hclamp := timeSeriesValue_unclamped (k % 24) (random k) (hr k).1 (hr k).2
  obtain ⟨hl, hu⟩ := unclamped_bounds (k % 24) (random k) (hr k).1 (hr k).2
  obtain ⟨-, -, s1, s2, e1, e2⟩ := clamp_margins
  refine ⟨hclamp, ?_, ⟨?_, ?_⟩, ⟨?_, ?_⟩⟩
  · simp only [List.getElem?_map, List.getElem?_range hk, Option.map_some', timeSeriesValue,
      hclamp]
  · have := toRat_le_toRat hl
    rw [toRat_eq_of_units _ _ _ (by norm_num) e1] at this
    simpa using this
  · have := toRat_le_toRat hu
    rw [toRat_eq_of_units _ _ _ (by norm_num) e2] at this
    simpa using this
  · rw [lt_def]; rw [le_def] at hl; omega
  · rw [lt_def]; rw [le_def] at hu; omega

theorem generateTimeSeriesData_clamp_inactive_witness :
    ∃ d, generateTimeSeriesData (fun _ => "") (fun _ => 0.5) 46 = some d ∧
      ∀ k < 45,
        Math.min 103 (Math.max 99.5 (baseValue (k % 24) + ((0.5 : F64) - 0.5) * 0.4))
          = baseValue (k % 24) + ((0.5 : F64) - 0.5) * 0.4 ∧
        d.data[k]? = some (baseValue (k % 24) + ((0.5 : F64) - 0.5) * 0.4) ∧
        (100 ≤ (baseValue (k % 24) + ((0.5 : F64) - 0.5) * 0.4).toRat ∧
          (baseValue (k % 24) + ((0.5 : F64) - 0.5) * 0.4).toRat ≤ 205 / 2) ∧
        ((99.5 : F64) < baseValue (k % 24) + ((0.5 : F64) - 0.5) * 0.4 ∧
          baseValue (k % 24) + ((0.5 : F64) - 0.5) * 0.4 < (103 : F64)) :=
  generateTimeSeriesData_clamp_inactive (fun _ => "") (fun _ => 0.5) 46 (le_refl 46)
    (fun _ => half_is_draw)

open F64

/-! ### Sales values against the axes of `createChart2` -/

theorem toRat_le_iff (x y : F64) : x.toRat ≤ y.toRat ↔ x ≤ y := by
  have hpos := scale_pos
  unfold toRat
  rw [le_def]
  generalize scale = S at hpos ⊢
  have hs : (0 : ℚ) < (S : ℚ) := by exact_mod_cast hpos
  rw [div_le_div_iff_of_pos_right hs]
  exact Int.cast_le

theorem toRat_lt_iff (x y : F64) : x.toRat < y.toRat ↔ x < y := by
  have hpos := scale_pos
  unfold toRat
  rw [lt_def]
  generalize scale = S at hpos ⊢
  have hs : (0 : ℚ) < (S : ℚ) := by exact_mod_cast hpos
  rw [div_lt_div_iff_of_pos_right hs]
  exact Int.cast_lt

set_option maxRecDepth 100000 in
theorem chart2_axis_units :
    chart2AxisY.min.units * ((1 : ℕ) : ℤ) = 50 * (scale : ℤ) ∧
      chart2AxisY.max.units * ((1 : ℕ) : ℤ) = 90 * (scale : ℤ) ∧
      chart2AxisY1.min.units * ((1 : ℕ) : ℤ) = 20 * (scale : ℤ) ∧
      chart2AxisY1.max.units * ((1 : ℕ) : ℤ) = 40 * (scale : ℤ) := by decide!

/-- The axis bounds of `createChart2` as rational numbers. -/
theorem chart2_axis_values :
    chart2AxisY.min.toRat = 50 ∧ chart2AxisY.max.toRat = 90 ∧
      chart2AxisY1.min.toRat = 20 ∧ chart2AxisY1.max.toRat = 40 := by
  obtain ⟨h1, h2, h3, h4⟩ := chart2_axis_units
  refine ⟨?_, ?_, ?_, ?_⟩
  · rw [toRat_eq_of_units _ _ _ (by norm_num) h1]; norm_num
  · rw [toRat_eq_of_units _ _ _ (by norm_num) h2]; norm_num
  · rw [toRat_eq_of_units _ _ _ (by norm_num) h3]; norm_num
  · rw [toRat_eq_of_units _ _ _ (by norm_num) h4]; norm_num

/-- C14. For all draws in [0,1): in the peak months (index 6, 7, 8) every national
value of `generateSalesData` is at least 94, above the maximum 90 of its axis in
`createChart2`, and every regional value is at least 40, the maximum of its axis;
in the nine other months the national value lies in [50, 90] and the regional
value in [20, 40], the axis ranges. -/
theorem generateSalesData_axis_range (random : ℕ → F64) (fuel : ℕ) (hfuel : 13 ≤ fuel)
    (hr : ∀ k, 0 ≤ random k ∧ random k < 1) :
    (chart2AxisY.min.toRat = 50 ∧ chart2AxisY.max.toRat = 90 ∧
      chart2AxisY1.min.toRat = 20 ∧ chart2AxisY1.max.toRat = 40) ∧
    ∃ d, generateSalesData random fuel = some d ∧
      ∀ i < 12, ∃ n e : F64, d.nationalSales[i]? = some n ∧ d.eastChinaSales[i]? = some e ∧
        (i = 6 ∨ i = 7 ∨ i = 8 →
          94 ≤ n.toRat ∧ chart2AxisY.max < n ∧ 40 ≤ e.toRat ∧ chart2AxisY1.max ≤ e) ∧
        (¬ (i = 6 ∨ i = 7 ∨ i = 8) →
          (chart2AxisY.min ≤ n ∧ n ≤ chart2AxisY.max) ∧
          (chart2AxisY1.min ≤ e ∧ e ≤ chart2AxisY1.max)) := by
  obtain ⟨a1, a2, a3, a4⟩ := chart2_axis_values
  refine ⟨⟨a1, a2, a3, a4⟩, _, generateSalesData_eq random fuel hfuel, ?_⟩
  intro i hi
  have hn := national_within i hi (random (2 * i)) (hr _).1 (hr _).2
  have he := east_within i hi (random (2 * i + 1)) (hr _).1 (hr _).2
  refine ⟨70 * seasonalFactor i + (random (2 * i) - 0.5) * 8,
    30 * seasonalFactor i + (random (2 * i + 1) - 0.5) * 4, ?_, ?_, ?_, ?_⟩
  · simp [List.getElem?_map, List.getElem?_range, hi]
  · simp [List.getElem?_map, List.getElem?_range, hi]
  · intro hpeak
    have hm : specSeasonalMultiplier i = 7 / 5 := by
      unfold specSeasonalMultiplier; rw [if_pos hpeak]
    rw [hm, abs_le] at hn he
    refine ⟨by linarith [hn.1], ?_, by linarith [he.1], ?_⟩
    · rw [← toRat_lt_iff, a2]; linarith [hn.1]
    · rw [← toRat_le_iff, a4]; linarith [he.1]
  · intro hoff
    have hm : specSeasonalMultiplier i = 4 / 5 ∨ specSeasonalMultiplier i = 11 / 10 := by
      unfold specSeasonalMultiplier
      rw [if_neg hoff]
      split_ifs
      · exact Or.inl rfl
      · exact Or.inr rfl
    rw [abs_le] at hn he
    rw [← toRat_le_iff, ← toRat_le_iff, ← toRat_le_iff, ← toRat_le_iff, a1, a2, a3, a4]
    rcases hm with hm | hm <;> rw [hm] at hn he <;>
      exact ⟨⟨by linarith [hn.1], by linarith [hn.2]⟩, ⟨by linarith [he.1], by linarith [he.2]⟩⟩

theorem generateSalesData_axis_range_witness :
    (chart2AxisY.min.toRat = 50 ∧ chart2AxisY.max.toRat = 90 ∧
      chart2AxisY1.min.toRat = 20 ∧ chart2AxisY1.max.toRat = 40) ∧
    ∃ d, generateSalesData (fun _ => 0.5) 13 = some d ∧
      ∀ i < 12, ∃ n e : F64, d.nationalSales[i]? = some n ∧ d.eastChinaSales[i]? = some e ∧
        (i = 6 ∨ i = 7 ∨ i = 8 →
          94 ≤ n.toRat ∧ chart2AxisY.max < n ∧ 40 ≤ e.toRat ∧ chart2AxisY1.max ≤ e) ∧
        (¬ (i = 6 ∨ i = 7 ∨ i = 8) →
          (chart2AxisY.min ≤ n ∧ n ≤ chart2AxisY.max) ∧
          (chart2AxisY1.min ≤ e ∧ e ≤ chart2AxisY1.max)) :=
  generateSalesData_axis_range (fun _ => 0.5) 13 (le_refl 13) (fun _ => half_is_draw)

/-! ### The registry `charts` -/

theorem constructedCount_append (s t : List Event) :
    constructedCount (s ++ t) = constructedCount s + constructedCount t := by
  simp [constructedCount, List.filter_append]

/-- Closed form of `createChart`. -/
theorem createChart_eq (ok : Bool) (c : ChartId) (type : String) (p : Page) :
    createChart ok c type p =
      if ok then
        { page :=
            { charts := Function.update p.charts c (some (constructedCount p.trace))
              trace := p.trace ++ [Event.createChart c type]
                ++ (p.charts c).toList.map Event.destroy
                ++ [Event.construct c type (constructedCount p.trace)] }
          thrown := none }
      else
        { page :=
            { charts := p.charts
              trace := p.trace ++ [Event.createChart c type]
                ++ (p.charts c).toList.map Event.destroy }
          thrown := some (JSError.chartBuild c) } := by
  unfold createChart
  cases h : p.charts c <;> cases ok <;>
    simp [h, constructedCount_append, constructedCount]

theorem createChart_thrown (ok : Bool) (c : ChartId) (type : String) (p : Page) :
    (createChart ok c type p).thrown = none ↔ ok = true := by
  rw [createChart_eq]
  cases ok <;> simp

theorem createChart_invariant (ok : Bool) (c : ChartId) (type : String) (p : Page)
    (h : RegistryInvariant p) : RegistryInvariant (createChart ok c type p).page := by
  rw [createChart_eq]
  intro c' ty obj hmem
  cases ok
  · simp only [Bool.false_eq_true, if_false, List.mem_append, List.mem_singleton,
      List.mem_map, Option.mem_toList, reduceCtorEq, false_or, or_false, and_false,
      exists_false] at hmem
    rcases h c' ty obj hmem with h1 | h1
    · exact Or.inl h1
    · right; simp [h1]
  · simp only [if_true, List.mem_append, List.mem_singleton, List.mem_map, Option.mem_toList,
      reduceCtorEq, false_or, or_false, and_false, exists_false, Event.construct.injEq]
      at hmem
    rcases hmem with hold | ⟨rfl, rfl, rfl⟩
    · rcases h c' ty obj hold with h1 | h1
      · by_cases hc : c' = c
        · subst hc
          right; simp [h1]
        · left
          simp [Function.update_noteq hc, h1]
      · right; simp [h1]
    · left
      simp

theorem run_eq_createChart (call : Call) (c : ChartId) (p : Page)
    (hc : call.target = some c) (hdone : (call.run p).thrown = none) :
    call.run p = createChart true c call.type p := by
  cases call with
  | create ok c' type =>
    simp only [Call.target, Option.some.injEq] at hc
    subst hc
    have hrun : (Call.create ok c' type).run p = createChart ok c' type p := by
      cases c' <;> rfl
    rw [hrun] at hdone ⊢
    rw [createChart_thrown] at hdone
    rw [hdone]; rfl
  | switch selectorOk hasEvent ok chartId type =>
    simp only [Call.run, switchChart] at hdone ⊢
    simp only [Call.target] at hc
    cases selectorOk
    · simp at hdone
    · cases hasEvent
      · simp at hdone
      · simp only [if_true] at hdone ⊢
        split_ifs at hc hdone ⊢ <;>
          simp only [Option.some.injEq, reduceCtorEq] at hc <;>
          subst hc <;>
          simp only [createChart1, createChart2, createChart3, createChart4, createChart5,
            createChart_thrown] at hdone ⊢ <;>
          rw [hdone] <;> rfl

theorem run_invariant (call : Call) (p : Page) (h : RegistryInvariant p) :
    RegistryInvariant (call.run p).page := by
  cases call with
  | create ok c type =>
    have hrun : (Call.create ok c type).run p = createChart ok c type p := by
      cases c <;> rfl
    rw [hrun]
    exact createChart_invariant ok c type p h
  | switch selectorOk hasEvent ok chartId type =>
    simp only [Call.run, switchChart]
    split_ifs <;>
      first
        | exact h
        | exact createChart_invariant _ _ _ _ h

theorem runCalls_invariant (calls : List Call) (p : Page) (h : RegistryInvariant p) :
    RegistryInvariant (runCalls calls p) := by
  induction calls generalizing p with
  | nil => exact h
  | cons call rest ih => exact ih _ (run_invariant call p h)

theorem emptyPage_invariant : RegistryInvariant emptyPage := by
  intro c type obj hmem
  simp [emptyPage] at hmem

/-- C11. In every state reachable from the empty registry by calls of `createChart1` ..
`createChart5` and `switchChart`, a call on chart id `c` that completes destroys the
instance registered under `c` (if any), then constructs exactly one new instance and
registers it under `c`; the entries of the other ids are unchanged, and before and
after the call every instance ever constructed is the one registered under its id or
has been destroyed. -/
theorem registry_replaced_on_call (calls : List Call) (call : Call) (c : ChartId)
    (hc : call.target = some c)
    (hdone : (call.run (runCalls calls emptyPage)).thrown = none) :
    (call.run (runCalls calls emptyPage)).page.trace
        = (runCalls calls emptyPage).trace ++ [Event.createChart c call.type]
          ++ ((runCalls calls emptyPage).charts c).toList.map Event.destroy
          ++ [Event.construct c call.type (constructedCount (runCalls calls emptyPage).trace)] ∧
      (call.run (runCalls calls emptyPage)).page.charts c
        = some (constructedCount (runCalls calls emptyPage).trace) ∧
      constructedCount (call.run (runCalls calls emptyPage)).page.trace
        = constructedCount (runCalls calls emptyPage).trace + 1 ∧
      (∀ c', c' ≠ c → (call.run (runCalls calls emptyPage)).page.charts c'
        = (runCalls calls emptyPage).charts c') ∧
      (∀ (c' : ChartId) (type : String) (obj : ℕ),
        Event.construct c' type obj ∈ (runCalls calls emptyPage).trace →
          (runCalls calls emptyPage).charts c' = some obj ∨
            Event.destroy obj ∈ (runCalls calls emptyPage).trace) ∧
      (∀ (c' : ChartId) (type : String) (obj : ℕ),
        Event.construct c' type obj ∈ (call.run (runCalls calls emptyPage)).page.trace →
          (call.run (runCalls calls emptyPage)).page.charts c' = some obj ∨
            Event.destroy obj ∈ (call.run (runCalls calls emptyPage)).page.trace) := by
  have hinv := runCalls_invariant calls emptyPage emptyPage_invariant
  have hinv2 := run_invariant call _ hinv
  refine ⟨?_, ?_, ?_, ?_, hinv, hinv2⟩
  · rw [run_eq_createChart call c _ hc hdone, createChart_eq]; rfl
  · rw [run_eq_createChart call c _ hc hdone, createChart_eq]
    simp
  · rw [run_eq_createChart call c _ hc hdone, createChart_eq]
    cases h : (runCalls calls emptyPage).charts c <;>
      simp [h, constructedCount_append, constructedCount]
  · intro c' hne
    rw [run_eq_createChart call c _ hc hdone, createChart_eq]
    simp [Function.update_noteq hne]

theorem registry_replaced_on_call_witness :
    (exampleCall.run (runCalls exampleCalls emptyPage)).page.trace
        = (runCalls exampleCalls emptyPage).trace ++ [Event.createChart ChartId.chart2 exampleCall.type]
          ++ ((runCalls exampleCalls emptyPage).charts ChartId.chart2).toList.map Event.destroy
          ++ [Event.construct ChartId.chart2 exampleCall.type (constructedCount (runCalls exampleCalls emptyPage).trace)] ∧
      (exampleCall.run (runCalls exampleCalls emptyPage)).page.charts ChartId.chart2
        = some (constructedCount (runCalls exampleCalls emptyPage).trace) ∧
      constructedCount (exampleCall.run (runCalls exampleCalls emptyPage)).page.trace
        = constructedCount (runCalls exampleCalls emptyPage).trace + 1 ∧
      (∀ c', c' ≠ ChartId.chart2 → (exampleCall.run (runCalls exampleCalls emptyPage)).page.charts c'
        = (runCalls exampleCalls emptyPage).charts c') ∧
      (∀ (c' : ChartId) (type : String) (obj : ℕ),
        Event.construct c' type obj ∈ (runCalls exampleCalls emptyPage).trace →
          (runCalls exampleCalls emptyPage).charts c' = some obj ∨
            Event.destroy obj ∈ (runCalls exampleCalls emptyPage).trace) ∧
      (∀ (c' : ChartId) (type : String) (obj : ℕ),
        Event.construct c' type obj ∈ (exampleCall.run (runCalls exampleCalls emptyPage)).page.trace →
          (exampleCall.run (runCalls exampleCalls emptyPage)).page.charts c' = some obj ∨
            Event.destroy obj ∈ (exampleCall.run (runCalls exampleCalls emptyPage)).page.trace) :=
  registry_replaced_on_call exampleCalls exampleCall ChartId.chart2 rfl rfl

/-! ### `initCharts` -/

/-- The charts named by `initSequence` and the values of `ok` on the first ones. -/
theorem initSequence_ok (ok : ChartId → Bool) (k : ℕ)
    (hbefore : ∀ j c t, j < k → initSequence[j]? = some (c, t) → ok c = true) :
    (0 < k → ok ChartId.chart1 = true) ∧ (1 < k → ok ChartId.chart2 = true) ∧
      (2 < k → ok ChartId.chart3 = true) ∧ (3 < k → ok ChartId.chart4 = true) ∧
      (4 < k → ok ChartId.chart5 = true) := by
  refine ⟨fun h => hbefore 0 _ "line" h rfl, fun h => hbefore 1 _ "line" h rfl,
    fun h => hbefore 2 _ "bar" h rfl, fun h => hbefore 3 _ "line" h rfl,
    fun h => hbefore 4 _ "line" h rfl⟩

theorem tryStatement_consoleError_thrown (body : Page → Outcome) (msg : String) (p : Page) :
    (tryStatement body (consoleError msg) p).thrown = none := by
  unfold tryStatement
  split
  · assumption
  · rfl

/-- Whatever fails and whatever the page state, `initCharts` completes normally. -/
theorem initCharts_never_throws (ok : ChartId → Bool) (p : Page) :
    (initCharts ok p).thrown = none := by
  unfold initCharts
  simp only [runBlock, consoleLog]
  rw [tryStatement_consoleError_thrown]

/-- C12. `initCharts` never throws. It attempts chart1('line'), chart2('line'),
chart3('bar'), chart4('line'), chart5('line') in this order from the empty registry;
when the k-th (counted from 0) is the first whose building fails, exactly the charts
before it are registered, no later chart is attempted and one `console.error` is
made; when none fails (k = 5) all five are registered and the success message is
logged. -/
theorem initCharts_first_failure (ok : ChartId → Bool) (k : ℕ) (hk : k ≤ 5)
    (hbefore : ∀ j c t, j < k → initSequence[j]? = some (c, t) → ok c = true)
    (hfail : ∀ c t, initSequence[k]? = some (c, t) → ok c = false) :
    (∀ (ok' : ChartId → Bool) (p : Page), (initCharts ok' p).thrown = none) ∧
      (∀ j c t, initSequence[j]? = some (c, t) →
        (initCharts ok emptyPage).page.charts c = if j < k then some j else none) ∧
      (initCharts ok emptyPage).page.trace
        = [Event.consoleLog "页面加载完成，开始初始化图表..."]
          ++ ((initSequence.take k).enum.flatMap fun entry =>
              [Event.createChart entry.2.1 entry.2.2,
               Event.construct entry.2.1 entry.2.2 entry.1])
          ++ (match initSequence[k]? with
              | some (c, t) =>
                [Event.createChart c t,
                 Event.consoleError "图表初始化失败:" (JSError.chartBuild c)]
              | none => [Event.consoleLog "所有图表初始化成功！"]) := by
  obtain ⟨h1, h2, h3, h4, h5⟩ := initSequence_ok ok k hbefore
  have hlist : ∀ j c t, initSequence[j]? = some (c, t) →
      (j = 0 ∧ c = ChartId.chart1) ∨ (j = 1 ∧ c = ChartId.chart2) ∨
      (j = 2 ∧ c = ChartId.chart3) ∨ (j = 3 ∧ c = ChartId.chart4) ∨
      (j = 4 ∧ c = ChartId.chart5) := by
    intro j c t h
    match j, h with
    | 0, h => simp [initSequence] at h; simp [h.1.symm]
    | 1, h => simp [initSequence] at h; simp [h.1.symm]
    | 2, h => simp [initSequence] at h; simp [h.1.symm]
    | 3, h => simp [initSequence] at h; simp [h.1.symm]
    | 4, h => simp [initSequence] at h; simp [h.1.symm]
    | (n + 5), h => simp [initSequence] at h
  interval_cases k
  · have f := hfail ChartId.chart1 "line" rfl
    unfold initCharts
    rw [f]
    refine ⟨initCharts_never_throws, ?_, rfl⟩
    intro j c t h
    rcases hlist j c t h with ⟨rfl, rfl⟩ | ⟨rfl, rfl⟩ | ⟨rfl, rfl⟩ | ⟨rfl, rfl⟩ | ⟨rfl, rfl⟩ <;>
      rfl
  · have f := hfail ChartId.chart2 "line" rfl
    unfold initCharts
    rw [f, h1 (by norm_num)]
    refine ⟨initCharts_never_throws, ?_, rfl⟩
    intro j c t h
    rcases hlist j c t h with ⟨rfl, rfl⟩ | ⟨rfl, rfl⟩ | ⟨rfl, rfl⟩ | ⟨rfl, rfl⟩ | ⟨rfl, rfl⟩ <;>
      rfl
  · have f := hfail ChartId.chart3 "bar" rfl
    unfold initCharts
    rw [f, h1 (by norm_num), h2 (by norm_num)]
    refine ⟨initCharts_never_throws, ?_, rfl⟩
    intro j c t h
    rcases hlist j c t h with ⟨rfl, rfl⟩ | ⟨rfl, rfl⟩ | ⟨rfl, rfl⟩ | ⟨rfl, rfl⟩ | ⟨rfl, rfl⟩ <;>
      rfl
  · have f := hfail ChartId.chart4 "line" rfl
    unfold initCharts
    rw [f, h1 (by norm_num), h2 (by norm_num), h3 (by norm_num)]
    refine ⟨initCharts_never_throws, ?_, rfl⟩
    intro j c t h
    rcases hlist j c t h with ⟨rfl, rfl⟩ | ⟨rfl, rfl⟩ | ⟨rfl, rfl⟩ | ⟨rfl, rfl⟩ | ⟨rfl, rfl⟩ <;>
      rfl
  · have f := hfail ChartId.chart5 "line" rfl
    unfold initCharts
    rw [f, h1 (by norm_num), h2 (by norm_num), h3 (by norm_num), h4 (by norm_num)]
    refine ⟨initCharts_never_throws, ?_, rfl⟩
    intro j c t h
    rcases hlist j c t h with ⟨rfl, rfl⟩ | ⟨rfl, rfl⟩ | ⟨rfl, rfl⟩ | ⟨rfl, rfl⟩ | ⟨rfl, rfl⟩ <;>
      rfl
  · unfold initCharts
    rw [h1 (by norm_num), h2 (by norm_num), h3 (by norm_num), h4 (by norm_num),
      h5 (by norm_num)]
    refine ⟨initCharts_never_throws, ?_, rfl⟩
    intro j c t h
    rcases hlist j c t h with ⟨rfl, rfl⟩ | ⟨rfl, rfl⟩ | ⟨rfl, rfl⟩ | ⟨rfl, rfl⟩ | ⟨rfl, rfl⟩ <;>
      rfl

theorem initCharts_first_failure_witness :
    (∀ (ok' : ChartId → Bool) (p : Page), (initCharts ok' p).thrown = none) ∧
      (∀ j c t, initSequence[j]? = some (c, t) →
        (initCharts exampleOk emptyPage).page.charts c = if j < 2 then some j else none) ∧
      (initCharts exampleOk emptyPage).page.trace
        = [Event.consoleLog "页面加载完成，开始初始化图表..."]
          ++ ((initSequence.take 2).enum.flatMap fun entry =>
              [Event.createChart entry.2.1 entry.2.2,
               Event.construct entry.2.1 entry.2.2 entry.1])
          ++ (match initSequence[2]? with
              | some (c, t) =>
                [Event.createChart c t,
                 Event.consoleError "图表初始化失败:" (JSError.chartBuild c)]
              | none => [Event.consoleLog "所有图表初始化成功！"]) :=
  initCharts_first_failure exampleOk 2 (by decide)
    (by
      intro j c t hj h
      interval_cases j <;> simp [initSequence] at h <;> rw [← h.1] <;> rfl)
    (by
      intro c t h
      simp [initSequence] at h
      rw [← h.1]; rfl)

/-- The trace of the sample page, spelled out. -/
theorem initCharts_example_trace :
    (initCharts exampleOk emptyPage).page.trace
      = [Event.consoleLog "页面加载完成，开始初始化图表...",
         Event.createChart ChartId.chart1 "line", Event.construct ChartId.chart1 "line" 0,
         Event.createChart ChartId.chart2 "line", Event.construct ChartId.chart2 "line" 1,
         Event.createChart ChartId.chart3 "bar",
         Event.consoleError "图表初始化失败:" (JSError.chartBuild ChartId.chart3)] := by
  rfl

open F64

/-! ### Two runs of a generator -/

theorem timeSeries_loop_eq (fmt : JSDate → String) (random : ℕ → F64) (fuel : ℕ)
    (hfuel : 46 ≤ fuel) :
    forLoop timeSeriesCond (timeSeriesStep fmt random) fuel
        { d := startDate, calls := 0, labels := [], data := [] }
      = some { d := ⟨45⟩, calls := 45
               labels := (List.range 45).map fun k => fmt ⟨k⟩
               data := (List.range 45).map fun k => timeSeriesValue (k % 24) (random k) } := by
  rw [forLoop_iterate _ _ 45 fuel _ (by omega)]
  · rw [timeSeries_iterate]
  · intro i hi
    rw [timeSeries_iterate]
    simp only [timeSeriesCond, endDate, decide_eq_true_eq]
    omega
  · rw [timeSeries_iterate]
    simp [timeSeriesCond, endDate]

theorem sales_loop_eq (random : ℕ → F64) (fuel : ℕ) (hfuel : 13 ≤ fuel) :
    forLoop salesCond (salesStep random) fuel
        { i := 0, calls := 0, nationalSales := [], eastChinaSales := [] }
      = some { i := 12, calls := 24
               nationalSales := (List.range 12).map fun i =>
                 70 * seasonalFactor i + (random (2 * i) - 0.5) * 8
               eastChinaSales := (List.range 12).map fun i =>
                 30 * seasonalFactor i + (random (2 * i + 1) - 0.5) * 4 } := by
  rw [forLoop_iterate _ _ 12 fuel _ (by omega)]
  · rw [sales_iterate]
  · intro i hi
    rw [sales_iterate]
    simp only [salesCond, decide_eq_true_eq]
    exact hi
  · rw [sales_iterate]
    simp [salesCond]

/-- C10. Two calls of a generator, in any two worlds (whatever earlier calls wrote to
`charts`, whatever the number of earlier calls of `Math.random`), for any two draw
streams and loop bounds: both calls return, both leave the page as they found it;
the two time series have the same length, the same labels and at every index the
same hour of day; the two sales objects have the same months list and the same
lengths; `getProgrammingLanguageData`, `generateQuadraticData` and
`generateTanData` return equal objects and make no call of `Math.random`. -/
theorem generator_calls_deterministic (toLocaleString : JSDate → String) (tan : F64 → F64)
    (random₁ random₂ : ℕ → F64) (fuel₁ fuel₂ : ℕ) (h₁ : 81 ≤ fuel₁) (h₂ : 81 ≤ fuel₂)
    (w₁ w₂ : World) :
    (∃ a b,
      callGenerator toLocaleString tan random₁ fuel₁ Generator.timeSeries w₁
        = some (Dataset.timeSeries a,
            { page := w₁.page, randomCalls := w₁.randomCalls + 45 }) ∧
      callGenerator toLocaleString tan random₂ fuel₂ Generator.timeSeries w₂
        = some (Dataset.timeSeries b,
            { page := w₂.page, randomCalls := w₂.randomCalls + 45 }) ∧
      generateTimeSeriesData toLocaleString (fun k => random₁ (w₁.randomCalls + k)) fuel₁
        = some a ∧
      generateTimeSeriesData toLocaleString (fun k => random₂ (w₂.randomCalls + k)) fuel₂
        = some b ∧
      a.data.length = b.data.length ∧ a.labels = b.labels ∧
      ∀ k < a.data.length, ∃ hour,
        a.data[k]? = some (timeSeriesValue hour (random₁ (w₁.randomCalls + k))) ∧
        b.data[k]? = some (timeSeriesValue hour (random₂ (w₂.randomCalls + k)))) ∧
    (∃ a b,
      callGenerator toLocaleString tan random₁ fuel₁ Generator.sales w₁
        = some (Dataset.sales a, { page := w₁.page, randomCalls := w₁.randomCalls + 24 }) ∧
      callGenerator toLocaleString tan random₂ fuel₂ Generator.sales w₂
        = some (Dataset.sales b, { page := w₂.page, randomCalls := w₂.randomCalls + 24 }) ∧
      generateSalesData (fun k => random₁ (w₁.randomCalls + k)) fuel₁ = some a ∧
      generateSalesData (fun k => random₂ (w₂.randomCalls + k)) fuel₂ = some b ∧
      a.months = b.months ∧ a.nationalSales.length = b.nationalSales.length ∧
      a.eastChinaSales.length = b.eastChinaSales.length) ∧
    (callGenerator toLocaleString tan random₁ fuel₁ Generator.languages w₁
        = some (Dataset.languages getProgrammingLanguageData, w₁) ∧
      callGenerator toLocaleString tan random₂ fuel₂ Generator.languages w₂
        = some (Dataset.languages getProgrammingLanguageData, w₂)) ∧
    (∃ d,
      callGenerator toLocaleString tan random₁ fuel₁ Generator.quadratic w₁
        = some (Dataset.curve d, w₁) ∧
      callGenerator toLocaleString tan random₂ fuel₂ Generator.quadratic w₂
        = some (Dataset.curve d, w₂) ∧
      d.xValues.length = 80) ∧
    (∃ d,
      callGenerator toLocaleString tan random₁ fuel₁ Generator.tangent w₁
        = some (Dataset.curve d, w₁) ∧
      callGenerator toLocaleString tan random₂ fuel₂ Generator.tangent w₂
        = some (Dataset.curve d, w₂) ∧
      d.xValues.length = d.yValues.length) := by
  refine ⟨⟨_, _, ?_, ?_,
      generateTimeSeriesData_eq toLocaleString _ fuel₁ (by omega),
      generateTimeSeriesData_eq toLocaleString _ fuel₂ (by omega), by simp, rfl, ?_⟩,
    ⟨_, _, ?_, ?_, generateSalesData_eq _ fuel₁ (by omega),
      generateSalesData_eq _ fuel₂ (by omega), rfl, by simp, by simp⟩,
    ⟨rfl, rfl⟩,
    ⟨{ xValues := (List.range 80).map quadraticCandidate
       yValues := (List.range 80).map fun k => quadraticCandidate k * quadraticCandidate k },
      ?_, ?_, ?_⟩,
    ⟨{ xValues := ((List.range 59).map tanCandidate).filter
         fun x => decide (-3 ≤ tan x ∧ tan x ≤ 3)
       yValues := (((List.range 59).map tanCandidate).filter
         fun x => decide (-3 ≤ tan x ∧ tan x ≤ 3)).map tan }, ?_, ?_, ?_⟩⟩
  · simp only [callGenerator, timeSeries_loop_eq toLocaleString _ fuel₁ (by omega),
      Option.map_some']
  · simp only [callGenerator, timeSeries_loop_eq toLocaleString _ fuel₂ (by omega),
      Option.map_some']
  · intro k hk
    simp only [List.length_map, List.length_range] at hk
    refine ⟨k % 24, ?_, ?_⟩ <;> simp [List.getElem?_map, List.getElem?_range, hk]
  · simp only [callGenerator, sales_loop_eq _ fuel₁ (by omega), Option.map_some']
  · simp only [callGenerator, sales_loop_eq _ fuel₂ (by omega), Option.map_some']
  · simp only [callGenerator, generateQuadraticData_eq fuel₁ h₁, Option.map_some']
  · simp only [callGenerator, generateQuadraticData_eq fuel₂ h₂, Option.map_some']
  · simp
  · simp only [callGenerator, generateTanData_eq tan fuel₁ (by omega), Option.map_some']
  · simp only [callGenerator, generateTanData_eq tan fuel₂ (by omega), Option.map_some']
  · simp

theorem generator_calls_deterministic_witness :
    (∃ a b,
      callGenerator (fun _ => "") (fun _ => 0) exampleRandom 81 Generator.timeSeries emptyWorld
        = some (Dataset.timeSeries a,
            { page := emptyWorld.page, randomCalls := emptyWorld.randomCalls + 45 }) ∧
      callGenerator (fun _ => "") (fun _ => 0) exampleRandom 100 Generator.timeSeries exampleWorld
        = some (Dataset.timeSeries b,
            { page := exampleWorld.page, randomCalls := exampleWorld.randomCalls + 45 }) ∧
      generateTimeSeriesData (fun _ => "") (fun k => exampleRandom (emptyWorld.randomCalls + k)) 81
        = some a ∧
      generateTimeSeriesData (fun _ => "") (fun k => exampleRandom (exampleWorld.randomCalls + k)) 100
        = some b ∧
      a.data.length = b.data.length ∧ a.labels = b.labels ∧
      ∀ k < a.data.length, ∃ hour,
        a.data[k]? = some (timeSeriesValue hour (exampleRandom (emptyWorld.randomCalls + k))) ∧
        b.data[k]? = some (timeSeriesValue hour (exampleRandom (exampleWorld.randomCalls + k)))) ∧
    (∃ a b,
      callGenerator (fun _ => "") (fun _ => 0) exampleRandom 81 Generator.sales emptyWorld
        = some (Dataset.sales a, { page := emptyWorld.page, randomCalls := emptyWorld.randomCalls + 24 }) ∧
      callGenerator (fun _ => "") (fun _ => 0) exampleRandom 100 Generator.sales exampleWorld
        = some (Dataset.sales b, { page := exampleWorld.page, randomCalls := exampleWorld.randomCalls + 24 }) ∧
      generateSalesData (fun k => exampleRandom (emptyWorld.randomCalls + k)) 81 = some a ∧
      generateSalesData (fun k => exampleRandom (exampleWorld.randomCalls + k)) 100 = some b ∧
      a.months = b.months ∧ a.nationalSales.length = b.nationalSales.length ∧
      a.eastChinaSales.length = b.eastChinaSales.length) ∧
    (callGenerator (fun _ => "") (fun _ => 0) exampleRandom 81 Generator.languages emptyWorld
        = some (Dataset.languages getProgrammingLanguageData, emptyWorld) ∧
      callGenerator (fun _ => "") (fun _ => 0) exampleRandom 100 Generator.languages exampleWorld
        = some (Dataset.languages getProgrammingLanguageData, exampleWorld)) ∧
    (∃ d,
      callGenerator (fun _ => "") (fun _ => 0) exampleRandom 81 Generator.quadratic emptyWorld
        = some (Dataset.curve d, emptyWorld) ∧
      callGenerator (fun _ => "") (fun _ => 0) exampleRandom 100 Generator.quadratic exampleWorld
        = some (Dataset.curve d, exampleWorld) ∧
      d.xValues.length = 80) ∧
    (∃ d,
      callGenerator (fun _ => "") (fun _ => 0) exampleRandom 81 Generator.tangent emptyWorld
        = some (Dataset.curve d, emptyWorld) ∧
      callGenerator (fun _ => "") (fun _ => 0) exampleRandom 100 Generator.tangent exampleWorld
        = some (Dataset.curve d, exampleWorld) ∧
      d.xValues.length = d.yValues.length) :=
  generator_calls_deterministic (fun _ => "") (fun _ => 0) exampleRandom exampleRandom 81 100
    (le_refl 81) (by norm_num) emptyWorld exampleWorld
